import Mathlib

/-
Formal model of the Yocto/Trace path-tracing core (yocto_trace.cpp).

Numeric idealization: C++ `float` values are modelled as exact extended
rationals `EF` (a rational, +infinity, -infinity, or NaN) with IEEE-style
special-value propagation and exact rational arithmetic (no rounding).
External routines that live outside the translated file (BVH intersection,
BSDF leaf evaluators, texture lookups, the PCG random generator, ...) are
modelled as fields of an `Env` record of abstract deterministic functions;
the code of yocto_trace.cpp itself is translated definition by definition.
-/

namespace YoctoTrace

/-- Exact rationals in a kernel-computable representation: an integer
numerator over a positive integer denominator, not necessarily reduced.
Value equality and order are given by cross multiplication; `Q.val` maps to
ℚ for algebraic reasoning. -/
structure Q where
  n : ℤ
  d : ℤ
  dpos : 0 < d

instance : DecidableEq Q := fun a b =>
  decidable_of_iff (a.n = b.n ∧ a.d = b.d)
    ⟨fun h => by cases a; cases b; cases h.1; cases h.2; rfl,
     fun h => by cases h; exact ⟨rfl, rfl⟩⟩

/-- The rational embedding of an integer. -/
def qOfInt (k : ℤ) : Q := ⟨k, 1, Int.one_pos⟩

/-- Build `a / b` for a positive literal denominator `b`. -/
def qmk (a b : ℤ) : Q := if h : 0 < b then ⟨a, b, h⟩ else ⟨a, 1, Int.one_pos⟩

/-- Exact addition. -/
def qAdd (a b : Q) : Q :=
  ⟨a.n * b.d + b.n * a.d, a.d * b.d, Int.mul_pos a.dpos b.dpos⟩

/-- Exact negation. -/
def qNeg (a : Q) : Q := ⟨-a.n, a.d, a.dpos⟩

/-- Exact multiplication. -/
def qMul (a b : Q) : Q := ⟨a.n * b.n, a.d * b.d, Int.mul_pos a.dpos b.dpos⟩

/-- Exact division (callers guard the zero denominator; it returns 0 there). -/
def qDiv (a b : Q) : Q :=
  if h : 0 < b.n then ⟨a.n * b.d, a.d * b.n, Int.mul_pos a.dpos h⟩
  else if h2 : b.n < 0 then ⟨-(a.n * b.d), a.d * (-b.n), Int.mul_pos a.dpos (by omega)⟩
  else qOfInt 0

/-- Value order, by cross multiplication. -/
def qlt (a b : Q) : Bool := decide (a.n * b.d < b.n * a.d)

/-- Value order, non-strict. -/
def qle (a b : Q) : Bool := decide (a.n * b.d ≤ b.n * a.d)

/-- Value equality. -/
def qeq (a b : Q) : Bool := decide (a.n * b.d = b.n * a.d)

/-- Zero test. -/
def qZero (a : Q) : Bool := decide (a.n = 0)

/-- Strict positivity test. -/
def qPos (a : Q) : Bool := decide (0 < a.n)

/-- Nonnegativity test. -/
def qNonneg (a : Q) : Bool := decide (0 ≤ a.n)

/-- The value of a `Q` as a Mathlib rational. -/
def Q.val (a : Q) : ℚ := (a.n : ℚ) / (a.d : ℚ)

/-- Extended float values: an exact rational, plus the IEEE special values. -/
inductive EF where
  | fin (q : Q)
  | pinf
  | ninf
  | nan
deriving DecidableEq

instance : Inhabited EF := ⟨.fin (qOfInt 0)⟩

/-- Embed an integer as a finite float value. -/
def ef (k : ℤ) : EF := .fin (qOfInt k)

/-- Embed a fraction with positive literal denominator as a finite float
value (used for the decimal float literals of the source, idealized as exact
rationals). -/
def efq (a b : ℤ) : EF := .fin (qmk a b)

/-- Negation of an extended float. -/
def efNeg : EF → EF
  | .fin q => .fin (qNeg q)
  | .pinf => .ninf
  | .ninf => .pinf
  | .nan => .nan

instance : Neg EF := ⟨efNeg⟩

/-- IEEE-style addition (exact on finite values). -/
def efAdd : EF → EF → EF
  | .nan, _ => .nan
  | _, .nan => .nan
  | .pinf, .ninf => .nan
  | .ninf, .pinf => .nan
  | .pinf, _ => .pinf
  | _, .pinf => .pinf
  | .ninf, _ => .ninf
  | _, .ninf => .ninf
  | .fin a, .fin b => .fin (qAdd a b)

instance : Add EF := ⟨efAdd⟩

/-- IEEE-style subtraction. -/
def efSub (a b : EF) : EF := efAdd a (efNeg b)

instance : Sub EF := ⟨efSub⟩

/-- IEEE-style multiplication (exact on finite values). -/
def efMul : EF → EF → EF
  | .nan, _ => .nan
  | _, .nan => .nan
  | .fin a, .fin b => .fin (qMul a b)
  | .pinf, .pinf => .pinf
  | .pinf, .ninf => .ninf
  | .ninf, .pinf => .ninf
  | .ninf, .ninf => .pinf
  | .pinf, .fin b => if qZero b then .nan else if qPos b then .pinf else .ninf
  | .fin a, .pinf => if qZero a then .nan else if qPos a then .pinf else .ninf
  | .ninf, .fin b => if qZero b then .nan else if qPos b then .ninf else .pinf
  | .fin a, .ninf => if qZero a then .nan else if qPos a then .ninf else .pinf

instance : Mul EF := ⟨efMul⟩

/-- IEEE-style division: a finite nonzero value divided by zero is a signed
infinity, `0/0` is NaN (the sign of zero is not modelled). -/
def efDiv : EF → EF → EF
  | .nan, _ => .nan
  | _, .nan => .nan
  | .fin a, .fin b =>
      if qZero b then (if qZero a then .nan else if qPos a then .pinf else .ninf)
      else .fin (qDiv a b)
  | .fin _, .pinf => .fin (qOfInt 0)
  | .fin _, .ninf => .fin (qOfInt 0)
  | .pinf, .fin b => if qNonneg b then .pinf else .ninf
  | .ninf, .fin b => if qNonneg b then .ninf else .pinf
  | .pinf, _ => .nan
  | .ninf, _ => .nan

instance : Div EF := ⟨efDiv⟩

/-- IEEE-style strict comparison: every comparison with NaN is false. -/
def efLt : EF → EF → Bool
  | .nan, _ => false
  | _, .nan => false
  | .fin a, .fin b => qlt a b
  | .pinf, .pinf => false
  | .ninf, .ninf => false
  | .ninf, _ => true
  | _, .pinf => true
  | .pinf, _ => false
  | _, .ninf => false

/-- IEEE-style non-strict comparison: every comparison with NaN is false. -/
def efLe : EF → EF → Bool
  | .nan, _ => false
  | _, .nan => false
  | .fin a, .fin b => qle a b
  | .pinf, .pinf => true
  | .ninf, .ninf => true
  | .ninf, _ => true
  | _, .pinf => true
  | .pinf, _ => false
  | _, .ninf => false

/-- IEEE-style equality test: NaN compares unequal to everything. -/
def efBeq : EF → EF → Bool
  | .fin a, .fin b => qeq a b
  | .pinf, .pinf => true
  | .ninf, .ninf => true
  | _, _ => false

/-- Finiteness predicate, as in `isfinite`. -/
def efIsFinite : EF → Bool
  | .fin _ => true
  | _ => false

/-- The `min` of yocto_math: `(a < b) ? a : b`. -/
def efMin (a b : EF) : EF := if efLt a b then a else b

/-- The `max` of yocto_math: `(a > b) ? a : b`. -/
def efMax (a b : EF) : EF := if efLt b a then a else b

/-- The `abs` of yocto_math: `(a < 0) ? -a : a`. -/
def efAbs (a : EF) : EF := if efLt a (ef 0) then efNeg a else a

/-- A 3-component float vector (`vec3f`). -/
structure EV3 where
  x : EF
  y : EF
  z : EF
deriving DecidableEq

/-- The zero vector `vec3f{0, 0, 0}`. -/
def zero3 : EV3 := ⟨ef 0, ef 0, ef 0⟩

/-- The one vector `vec3f{1, 1, 1}`. -/
def one3 : EV3 := ⟨ef 1, ef 1, ef 1⟩

instance : Add EV3 := ⟨fun a b => ⟨a.x + b.x, a.y + b.y, a.z + b.z⟩⟩

instance : Sub EV3 := ⟨fun a b => ⟨a.x - b.x, a.y - b.y, a.z - b.z⟩⟩

instance : Neg EV3 := ⟨fun a => ⟨-a.x, -a.y, -a.z⟩⟩

instance : Mul EV3 := ⟨fun a b => ⟨a.x * b.x, a.y * b.y, a.z * b.z⟩⟩

instance : Div EV3 := ⟨fun a b => ⟨a.x / b.x, a.y / b.y, a.z / b.z⟩⟩

instance : HMul EV3 EF EV3 := ⟨fun v s => ⟨v.x * s, v.y * s, v.z * s⟩⟩

instance : HMul EF EV3 EV3 := ⟨fun s v => ⟨s * v.x, s * v.y, s * v.z⟩⟩

instance : HDiv EV3 EF EV3 := ⟨fun v s => ⟨v.x / s, v.y / s, v.z / s⟩⟩

/-- Dot product of `vec3f`. -/
def dot (a b : EV3) : EF := a.x * b.x + a.y * b.y + a.z * b.z

/-- The `max` of a `vec3f`: `max(max(a.x, a.y), a.z)`. -/
def ev3max (a : EV3) : EF := efMax (efMax a.x a.y) a.z

/-- Componentwise float equality, as in `v == vec3f{...}`. -/
def ev3beq (a b : EV3) : Bool := efBeq a.x b.x && efBeq a.y b.y && efBeq a.z b.z

/-- Finiteness of a `vec3f`: all components finite. -/
def ev3IsFinite (a : EV3) : Bool := efIsFinite a.x && efIsFinite a.y && efIsFinite a.z

/-- Squared distance between two points. -/
def distance_squared (a b : EV3) : EF := dot (a - b) (a - b)

/-- Mirror reflection of yocto_math: `reflect(w, n) = -w + 2 * dot(n, w) * n`. -/
def reflect (w n : EV3) : EV3 := -w + (ef 2 * dot n w) * n

/-- A 4-component float vector (`vec4f`). -/
structure EV4 where
  x : EF
  y : EF
  z : EF
  w : EF
deriving DecidableEq

/-- The zero `vec4f`. -/
def zero4 : EV4 := ⟨ef 0, ef 0, ef 0, ef 0⟩

/-- Linear interpolation `lerp(a, b, t) = a * (1 - t) + b * t`, on `vec3f`. -/
def lerp3 (a b : EV3) (t : EF) : EV3 := a * (ef 1 - t) + b * t

/-- Linear interpolation on `vec4f`. -/
def lerp4 (a b : EV4) (t : EF) : EV4 :=
  ⟨a.x * (ef 1 - t) + b.x * t, a.y * (ef 1 - t) + b.y * t,
   a.z * (ef 1 - t) + b.z * t, a.w * (ef 1 - t) + b.w * t⟩

/-- The value of the `float` constant `pif` (the single-precision value of π),
as an exact rational. -/
def pif : EF := .fin (qmk 13176795 4194304)

instance : HAdd EV3 EF EV3 := ⟨fun v s => ⟨v.x + s, v.y + s, v.z + s⟩⟩

/-- A ray `ray3f` (origin and direction; tmin/tmax are never read by the
translated code and are omitted). -/
structure Ray where
  o : EV3
  d : EV3
deriving DecidableEq

/-- The sentinel `invalidid` used for absent references. -/
def invalidid : ℤ := -1

/-- A `scene_intersection` result: hit flag, instance id, element id,
element uv, and distance. -/
structure Isec where
  hit : Bool
  inst : ℤ
  element : ℤ
  uv : EF × EF
  distance : EF
deriving DecidableEq, Inhabited

/-- The closed `material_type` tag of yocto_scene (the set of constructors is
taken from the dispatch switches of yocto_trace.cpp). -/
inductive MType where
  | matte
  | glossy
  | reflective
  | transparent
  | refractive
  | subsurface
  | volumetric
  | gltfpbr
deriving DecidableEq

/-- The integer code of a `material_type` value, used by `(int)material.type`
(enumerators are numbered in declaration order). -/
def mtype_code : MType → ℤ
  | .matte => 0
  | .glossy => 1
  | .reflective => 2
  | .transparent => 3
  | .refractive => 4
  | .subsurface => 5
  | .volumetric => 6
  | .gltfpbr => 7

/-- A `material_point`: the ephemeral per-shading-point material record. -/
structure MatPt where
  type : MType
  emission : EV3
  color : EV3
  roughness : EF
  metallic : EF
  ior : EF
  density : EV3
  scattering : EV3
  scanisotropy : EF
  opacity : EF
deriving DecidableEq

/-- One entry of `trace_lights`: an instance or environment reference and the
per-element cumulative distribution. -/
structure TraceLight where
  inst : ℤ
  environment : ℤ
  elements_cdf : List EF
deriving DecidableEq

/-- A camera: only the `aspect` field is read by the translated code. -/
structure Camera where
  aspect : EF
deriving DecidableEq, Inhabited

/-- An environment record as read by `sample_lights_pdf`: only the emission
texture reference is consulted by the translated code. -/
structure EnvLight where
  emission_tex : ℤ
deriving DecidableEq

/-- An instance record as read by `trace_falsecolor`: shape and material
references. -/
structure InstanceRef where
  shape : ℤ
  material : ℤ
deriving DecidableEq

/-- The `trace_sampler_type` enum. `unknown n` models a C++ enum object
carrying an integer value that is none of the declared enumerators (a scoped
enum may hold any value of its underlying type); the named constructors are
the enumerators handled by the dispatch switches. -/
inductive SamplerType where
  | path
  | pathdirect
  | pathmis
  | pathtest
  | naive
  | lightsampling
  | eyelight
  | furnace
  | falsecolor
  | unknown (n : ℤ)
deriving DecidableEq

/-- The `trace_falsecolor_type` enum, with `unknown n` modelling an
out-of-range value exactly as for `SamplerType`. -/
inductive FalsecolorType where
  | position
  | normal
  | frontfacing
  | gnormal
  | gfrontfacing
  | mtype
  | texcoord
  | color
  | emission
  | roughness
  | opacity
  | metallic
  | delta
  | element
  | instance_id
  | shape
  | material
  | highlight
  | unknown (n : ℤ)
deriving DecidableEq

/-- Identifier of the function pointer returned by `get_trace_sampler_func`. -/
inductive SamplerFn where
  | path
  | pathdirect
  | pathmis
  | pathtest
  | lightsampling
  | naive
  | eyelight
  | furnace
  | falsecolor
deriving DecidableEq

/-- The `trace_params` record (the fields read by the translated code). -/
structure trace_params where
  camera : ℤ
  resolution : ℤ
  sampler : SamplerType
  falsecolor : FalsecolorType
  samples : ℤ
  bounces : ℤ
  clamp : EF
  nocaustics : Bool
  envhidden : Bool
  tentfilter : Bool
  seed : ℕ
  batch : ℤ
  denoise : Bool
  noparallel : Bool
deriving DecidableEq

/-- The `trace_result` record returned by every integrator. -/
structure TraceResult where
  radiance : EV3
  hit : Bool
  albedo : EV3
  normal : EV3
deriving DecidableEq

/-- The environment of external deterministic functions: everything the
translated code calls that is implemented outside yocto_trace.cpp (BVH
queries, scene evaluation, BSDF leaf evaluators and samplers, texture data,
transcendental math, the PCG random generator). Random-generator states are
opaque handles of type ℕ evolved by `rng_next`. -/
structure Env where
  intersect_scene : Ray → Isec
  intersect_instance : ℤ → Ray → Isec
  eval_shading_position : Isec → EV3 → EV3
  eval_shading_normal : Isec → EV3 → EV3
  eval_shading_normal_at : ℤ → ℤ → EF × EF → EV3 → EV3
  eval_material : Isec → MatPt
  eval_material_at : ℤ → ℤ → EF × EF → MatPt
  eval_position_at : ℤ → ℤ → EF × EF → EV3
  eval_element_normal_at : ℤ → ℤ → EV3
  eval_element_normal : Isec → EV3
  eval_texcoord : Isec → EF × EF
  eval_environment : EV3 → EV3
  is_volumetric : Isec → Bool
  eval_matte : EV3 → EV3 → EV3 → EV3 → EV3
  eval_glossy : EV3 → EF → EF → EV3 → EV3 → EV3 → EV3
  eval_reflective_rough : EV3 → EF → EV3 → EV3 → EV3 → EV3
  eval_reflective_delta : EV3 → EV3 → EV3 → EV3 → EV3
  eval_transparent_rough : EV3 → EF → EF → EV3 → EV3 → EV3 → EV3
  eval_transparent_delta : EV3 → EF → EV3 → EV3 → EV3 → EV3
  eval_refractive_rough : EV3 → EF → EF → EV3 → EV3 → EV3 → EV3
  eval_refractive_delta : EV3 → EF → EV3 → EV3 → EV3 → EV3
  eval_gltfpbr : EV3 → EF → EF → EF → EV3 → EV3 → EV3 → EV3
  eval_passthrough : EV3 → EV3 → EV3 → EV3 → EV3
  sample_matte : EV3 → EV3 → EV3 → EF × EF → EV3
  sample_glossy : EV3 → EF → EF → EV3 → EV3 → EF → EF × EF → EV3
  sample_reflective_rough : EV3 → EF → EV3 → EV3 → EF × EF → EV3
  sample_transparent_rough : EV3 → EF → EF → EV3 → EV3 → EF → EF × EF → EV3
  sample_transparent_delta : EV3 → EF → EV3 → EV3 → EF → EV3
  sample_refractive_rough : EV3 → EF → EF → EV3 → EV3 → EF → EF × EF → EV3
  sample_refractive_delta : EV3 → EF → EV3 → EV3 → EF → EV3
  sample_gltfpbr : EV3 → EF → EF → EF → EV3 → EV3 → EF → EF × EF → EV3
  sample_passthrough : EV3 → EV3 → EV3 → EV3
  sample_matte_pdf : EV3 → EV3 → EV3 → EV3 → EF
  sample_glossy_pdf : EV3 → EF → EF → EV3 → EV3 → EV3 → EF
  sample_reflective_rough_pdf : EV3 → EF → EV3 → EV3 → EV3 → EF
  sample_reflective_delta_pdf : EV3 → EV3 → EV3 → EV3 → EF
  sample_tranparent_rough_pdf : EV3 → EF → EF → EV3 → EV3 → EV3 → EF
  sample_tranparent_delta_pdf : EV3 → EF → EV3 → EV3 → EV3 → EF
  sample_refractive_rough_pdf : EV3 → EF → EF → EV3 → EV3 → EV3 → EF
  sample_refractive_delta_pdf : EV3 → EF → EV3 → EV3 → EV3 → EF
  sample_gltfpbr_pdf : EV3 → EF → EF → EF → EV3 → EV3 → EV3 → EF
  sample_passthrough_pdf : EV3 → EV3 → EV3 → EV3 → EF
  eval_phasefunction : EF → EV3 → EV3 → EF
  sample_phasefunction : EF → EV3 → EF × EF → EV3
  sample_phasefunction_pdf : EF → EV3 → EV3 → EF
  sample_transmittance : EV3 → EF → EF → EF → EF
  eval_transmittance : EV3 → EF → EV3
  sample_transmittance_pdf : EV3 → EF → EF → EF
  sample_lights : EV3 → EF → EF → EF × EF → EV3
  sample_discrete_pdf : List EF → ℤ → EF
  transform_direction_inv : ℤ → EV3 → EV3
  atan2 : EF → EF → EF
  acos : EF → EF
  sine : EF → EF
  sqrt : EF → EF
  tex_size : ℤ → ℤ × ℤ
  environments : ℤ → EnvLight
  instances : ℤ → InstanceRef
  cameras : List Camera
  eval_camera : ℤ → EF × EF → EF × EF → Ray
  sample_disk : EF × EF → EF × EF
  srgb_to_rgb : EV3 → EV3
  hashed_color : ℤ → EV3
  fmod : EF → EF → EF
  environments_empty : Bool
  mk_rng : ℕ → ℕ → ℕ
  mk_rng1 : ℕ → ℕ
  rng_next : ℕ → ℕ
  rng_out : ℕ → EF
  rngi_out : ℕ → ℕ → ℕ
  denoise_image : List EV4 → List EV3 → List EV3 → List EV4

/-- `rand1f(rng)`: one float draw, with the advanced generator state. -/
def rand1f (E : Env) (s : ℕ) : EF × ℕ := (E.rng_out s, E.rng_next s)

/-- `rand2f(rng)`: two consecutive float draws. -/
def rand2f (E : Env) (s : ℕ) : (EF × EF) × ℕ :=
  ((E.rng_out s, E.rng_out (E.rng_next s)), E.rng_next (E.rng_next s))

/-- `rand1i(rng, n)`: one bounded integer draw. -/
def rand1i (E : Env) (s : ℕ) (n : ℕ) : ℕ × ℕ := (E.rngi_out s n, E.rng_next s)

/-- The `clamp` of yocto_math on floats: `min(max(x, lo), hi)`. -/
def efClamp (x lo hi : EF) : EF := efMin (efMax x lo) hi

/-- The `clamp` of yocto_math on ints. -/
def iclamp (x lo hi : ℤ) : ℤ := min (max x lo) hi

/-- C-style truncating conversion of a float to an int (undefined behaviour
on non-finite inputs is modelled as 0); `Int` division truncates toward
zero, matching the C cast. -/
def efTruncInt : EF → ℤ
  | .fin q => q.n / q.d
  | _ => 0

/-- Rounding of a float to an int as by `(int)round(x)`, half away from zero
(non-finite modelled as 0). -/
def efRoundInt : EF → ℤ
  | .fin q =>
      if 0 ≤ q.n then Int.fdiv (2 * q.n + q.d) (2 * q.d)
      else -(Int.fdiv (-(2 * q.n) + q.d) (2 * q.d))
  | _ => 0

/-- `vector::back()` of an element cdf (undefined behaviour on an empty
vector is modelled as 0). -/
def cdf_back (l : List EF) : EF := l.getLastD (ef 0)

/-- Translation of `eval_emission` (yocto_trace.cpp): emission on the front
side of the surface only. -/
def eval_emission (material : MatPt) (normal outgoing : EV3) : EV3 :=
  if efLe (ef 0) (dot normal outgoing) then material.emission else zero3

/-- Translation of the static `eval_bsdfcos` dispatcher of yocto_trace.cpp:
zero at roughness zero, otherwise dispatch on the material type to the
yocto_shading leaf evaluators (external, fields of `Env`); the trailing
`else` of the source returns zero (reached for `volumetric`). -/
def eval_bsdfcos (E : Env) (material : MatPt) (normal outgoing incoming : EV3) : EV3 :=
  if efBeq material.roughness (ef 0) then zero3
  else match material.type with
    | .matte => E.eval_matte material.color normal outgoing incoming
    | .glossy => E.eval_glossy material.color material.ior material.roughness normal outgoing incoming
    | .reflective => E.eval_reflective_rough material.color material.roughness normal outgoing incoming
    | .transparent => E.eval_transparent_rough material.color material.ior material.roughness normal outgoing incoming
    | .refractive => E.eval_refractive_rough material.color material.ior material.roughness normal outgoing incoming
    | .subsurface => E.eval_refractive_rough material.color material.ior material.roughness normal outgoing incoming
    | .gltfpbr => E.eval_gltfpbr material.color material.ior material.roughness material.metallic normal outgoing incoming
    | .volumetric => zero3

/-- Translation of the static `eval_delta` dispatcher of yocto_trace.cpp. -/
def eval_delta (E : Env) (material : MatPt) (normal outgoing incoming : EV3) : EV3 :=
  if !efBeq material.roughness (ef 0) then zero3
  else match material.type with
    | .reflective => E.eval_reflective_delta material.color normal outgoing incoming
    | .transparent => E.eval_transparent_delta material.color material.ior normal outgoing incoming
    | .refractive => E.eval_refractive_delta material.color material.ior normal outgoing incoming
    | .volumetric => E.eval_passthrough material.color normal outgoing incoming
    | _ => zero3

/-- Translation of the static `sample_bsdfcos` dispatcher of yocto_trace.cpp. -/
def sample_bsdfcos (E : Env) (material : MatPt) (normal outgoing : EV3) (rnl : EF) (rn : EF × EF) : EV3 :=
  if efBeq material.roughness (ef 0) then zero3
  else match material.type with
    | .matte => E.sample_matte material.color normal outgoing rn
    | .glossy => E.sample_glossy material.color material.ior material.roughness normal outgoing rnl rn
    | .reflective => E.sample_reflective_rough material.color material.roughness normal outgoing rn
    | .transparent => E.sample_transparent_rough material.color material.ior material.roughness normal outgoing rnl rn
    | .refractive => E.sample_refractive_rough material.color material.ior material.roughness normal outgoing rnl rn
    | .subsurface => E.sample_refractive_rough material.color material.ior material.roughness normal outgoing rnl rn
    | .gltfpbr => E.sample_gltfpbr material.color material.ior material.roughness material.metallic normal outgoing rnl rn
    | .volumetric => zero3

/-- Modelled from the spec: the delta-branch `sample_reflective(color, normal,
outgoing)` of yocto_shading.h is not among the translated sources; the spec
requires that a perfect mirror "must produce a single deterministic reflection
direction for every sample", so it is modelled as the mirror reflection of the
outgoing direction about the normal, a function of the normal and outgoing
direction only, taking no random input. -/
def sample_reflective_delta (_color : EV3) (normal outgoing : EV3) : EV3 :=
  reflect outgoing normal

/-- Translation of the static `sample_delta` dispatcher of yocto_trace.cpp;
note that the `reflective` case passes no random input to the leaf sampler. -/
def sample_delta (E : Env) (material : MatPt) (normal outgoing : EV3) (rnl : EF) : EV3 :=
  if !efBeq material.roughness (ef 0) then zero3
  else match material.type with
    | .reflective => sample_reflective_delta material.color normal outgoing
    | .transparent => E.sample_transparent_delta material.color material.ior normal outgoing rnl
    | .refractive => E.sample_refractive_delta material.color material.ior normal outgoing rnl
    | .volumetric => E.sample_passthrough material.color normal outgoing
    | _ => zero3

/-- Translation of the static `sample_bsdfcos_pdf` dispatcher of
yocto_trace.cpp. -/
def sample_bsdfcos_pdf (E : Env) (material : MatPt) (normal outgoing incoming : EV3) : EF :=
  if efBeq material.roughness (ef 0) then ef 0
  else match material.type with
    | .matte => E.sample_matte_pdf material.color normal outgoing incoming
    | .glossy => E.sample_glossy_pdf material.color material.ior material.roughness normal outgoing incoming
    | .reflective => E.sample_reflective_rough_pdf material.color material.roughness normal outgoing incoming
    | .transparent => E.sample_tranparent_rough_pdf material.color material.ior material.roughness normal outgoing incoming
    | .refractive => E.sample_refractive_rough_pdf material.color material.ior material.roughness normal outgoing incoming
    | .subsurface => E.sample_refractive_rough_pdf material.color material.ior material.roughness normal outgoing incoming
    | .gltfpbr => E.sample_gltfpbr_pdf material.color material.ior material.roughness material.metallic normal outgoing incoming
    | .volumetric => ef 0

/-- Translation of the static `sample_delta_pdf` dispatcher of
yocto_trace.cpp. -/
def sample_delta_pdf (E : Env) (material : MatPt) (normal outgoing incoming : EV3) : EF :=
  if !efBeq material.roughness (ef 0) then ef 0
  else match material.type with
    | .reflective => E.sample_reflective_delta_pdf material.color normal outgoing incoming
    | .transparent => E.sample_tranparent_delta_pdf material.color material.ior normal outgoing incoming
    | .refractive => E.sample_refractive_delta_pdf material.color material.ior normal outgoing incoming
    | .volumetric => E.sample_passthrough_pdf material.color normal outgoing incoming
    | _ => ef 0

/-- Translation of `eval_scattering` (yocto_trace.cpp). -/
def eval_scattering (E : Env) (material : MatPt) (outgoing incoming : EV3) : EV3 :=
  if ev3beq material.density zero3 then zero3
  else material.scattering * material.density *
       E.eval_phasefunction material.scanisotropy outgoing incoming

/-- Translation of `sample_scattering` (yocto_trace.cpp). -/
def sample_scattering (E : Env) (material : MatPt) (outgoing : EV3) (_rnl : EF) (rn : EF × EF) : EV3 :=
  if ev3beq material.density zero3 then zero3
  else E.sample_phasefunction material.scanisotropy outgoing rn

/-- Translation of `sample_scattering_pdf` (yocto_trace.cpp). -/
def sample_scattering_pdf (E : Env) (material : MatPt) (outgoing incoming : EV3) : EF :=
  if ev3beq material.density zero3 then ef 0
  else E.sample_phasefunction_pdf material.scanisotropy outgoing incoming

/-- Modelled from the spec: `is_delta(material_point)` of yocto_scene is not
among the translated sources; per the spec it is "true for mirror
reflection/refraction/transmission with zero roughness", i.e. for the
material types that have delta entry points. -/
def is_delta (material : MatPt) : Bool :=
  efBeq material.roughness (ef 0) &&
    (match material.type with
      | .reflective | .transparent | .refractive | .volumetric => true
      | _ => false)

/-- The balance-style `mis_heuristic` lambda of `trace_pathmis`. -/
def mis_heuristic (this_pdf other_pdf : EF) : EF :=
  this_pdf * this_pdf / (this_pdf * this_pdf + other_pdf * other_pdf)

/-- The shared weight test `weight == vec3f{0,0,0} || !isfinite(weight)` that
every integrator applies after updating the path throughput. -/
def weight_invalid (weight : EV3) : Bool := ev3beq weight zero3 || !ev3IsFinite weight

/-- The shared Russian-roulette block of every path-tracing loop:
only at `bounce > 3`, continue with probability `min(0.99, max(weight))`
(one random draw, taken only in that case), scaling the surviving throughput
by `1 / rr_prob`; `none` means the path terminates. -/
def russian_roulette (E : Env) (bounce : ℕ) (weight : EV3) (rng : ℕ) : Option EV3 × ℕ :=
  if 3 < bounce then
    let rr_prob := efMin (efq 99 100) (ev3max weight)
    let (r, rng') := rand1f E rng
    if efLe rr_prob r then (none, rng')
    else (some (weight * (ef 1 / rr_prob)), rng')
  else (some weight, rng)

/-- The shared weight check followed by Russian roulette, in source order
(`none` means the iteration ends with `break`). -/
def check_and_roulette (E : Env) (bounce : ℕ) (weight : EV3) (rng : ℕ) : Option EV3 × ℕ :=
  if weight_invalid weight then (none, rng) else russian_roulette E bounce weight rng

/-- The shared stochastic alpha test `material.opacity < 1 &&
rand1f(rng) >= material.opacity` (the draw happens only when opacity < 1,
matching the short-circuit evaluation of the source). -/
def opacity_test (E : Env) (opacity : EF) (rng : ℕ) : Bool × ℕ :=
  if efLt opacity (ef 1) then
    let (r, rng') := rand1f E rng
    (efLe opacity r, rng')
  else (false, rng)

/-- Translation of the static `sample_camera` of yocto_trace.cpp (the camera
evaluation, disk sampling and square root are external). -/
def sample_camera (E : Env) (cam : ℤ) (ij : ℤ × ℤ) (image_size : ℤ × ℤ)
    (puv luv : EF × EF) (tent : Bool) : Ray :=
  if !tent then
    let uv : EF × EF := ((ef ij.1 + puv.1) / ef image_size.1, (ef ij.2 + puv.2) / ef image_size.2)
    E.eval_camera cam uv (E.sample_disk luv)
  else
    let width := ef 2
    let offset := efq 1 2
    let fx := width * (if efLt puv.1 (efq 1 2) then E.sqrt (ef 2 * puv.1) - ef 1
                       else ef 1 - E.sqrt (ef 2 - ef 2 * puv.1)) + offset
    let fy := width * (if efLt puv.2 (efq 1 2) then E.sqrt (ef 2 * puv.2) - ef 1
                       else ef 1 - E.sqrt (ef 2 - ef 2 * puv.2)) + offset
    let uv : EF × EF := ((ef ij.1 + fx) / ef image_size.1, (ef ij.2 + fy) / ef image_size.2)
    E.eval_camera cam uv (E.sample_disk luv)

/-- Modelled from the spec: `sample_uniform_pdf(size)` of yocto_sampling.h is
not among the translated sources; uniform selection over `size` alternatives
has probability `1 / size`. -/
def sample_uniform_pdf (size : ℤ) : EF := ef 1 / ef size

/-- The inner re-tracing loop of `sample_lights_pdf` for one instance light:
up to 100 re-traced intersections along `direction`, each accumulating
`distance_squared(lposition, position) / (abs(dot(lnormal, direction)) * area)`
where `area` is the total of the light's element-area cdf. -/
def lights_pdf_loop (E : Env) (inst : ℤ) (area : EF) (position direction : EV3) :
    ℕ → EV3 → EF → EF
  | 0, _, lpdf => lpdf
  | fuel + 1, next_position, lpdf =>
    let intersection := E.intersect_instance inst ⟨next_position, direction⟩
    if !intersection.hit then lpdf
    else
      let lposition := E.eval_position_at inst intersection.element intersection.uv
      let lnormal := E.eval_element_normal_at inst intersection.element
      let lpdf' := lpdf + distance_squared lposition position /
                     (efAbs (dot lnormal direction) * area)
      lights_pdf_loop E inst area position direction fuel
        (lposition + direction * efq 1 1000) lpdf'

/-- The contribution of one light to `sample_lights_pdf`: the instance branch
re-traces the ray against that instance; the environment branch converts the
direction to texture coordinates and uses the texel importance cdf, or a
uniform sphere pdf when there is no emission texture. -/
def light_pdf (E : Env) (light : TraceLight) (position direction : EV3) : EF :=
  if light.inst ≠ invalidid then
    lights_pdf_loop E light.inst (cdf_back light.elements_cdf) position direction
      100 position (ef 0)
  else if light.environment ≠ invalidid then
    let environment := E.environments light.environment
    if environment.emission_tex ≠ invalidid then
      let wl := E.transform_direction_inv light.environment direction
      let tx0 := E.atan2 wl.z wl.x / (ef 2 * pif)
      let ty := E.acos (efClamp wl.y (ef (-1)) (ef 1)) / pif
      let tx := if efLt tx0 (ef 0) then tx0 + ef 1 else tx0
      let size := E.tex_size environment.emission_tex
      let i := iclamp (efTruncInt (tx * ef size.1)) 0 (size.1 - 1)
      let j := iclamp (efTruncInt (ty * ef size.2)) 0 (size.2 - 1)
      let prob := E.sample_discrete_pdf light.elements_cdf (j * size.1 + i) /
                    cdf_back light.elements_cdf
      let angle := (ef 2 * pif / ef size.1) * (pif / ef size.2) *
                     E.sine (pif * (ef j + efq 1 2) / ef size.2)
      prob / angle
    else ef 1 / (ef 4 * pif)
  else ef 0

/-- Translation of the static `sample_lights_pdf` of yocto_trace.cpp: the sum
over all lights of the per-light solid-angle pdf, times the uniform
light-selection pdf. -/
def sample_lights_pdf (E : Env) (lights : List TraceLight) (position direction : EV3) : EF :=
  (lights.foldl (fun pdf light => pdf + light_pdf E light position direction) (ef 0)) *
    sample_uniform_pdf lights.length

/-- Outcome of one iteration of a tracing loop body: `brk` is any `break`,
`opskip` is the stochastic-alpha event (the body reached `bounce -= 1;
continue`, subject to the loop's `opbounce` guard), `next` falls through to
the loop increment. -/
inductive BodyStep (σ : Type) where
  | brk (s : σ)
  | opskip (s : σ)
  | next (s : σ)

/-- The carried state of a `BodyStep`. -/
def stepState {σ : Type} : BodyStep σ → σ
  | .brk s => s
  | .opskip s => s
  | .next s => s

/-- The shared loop skeleton of every iterative integrator:
`for (bounce = 0; bounce < limit; bounce++)` with the shared opacity guard
`if (opbounce++ > 128) break;` hoisted out of the bodies. Returns the final
state together with the number of executed iterations and the number of
opacity continuations. The explicit `fuel` argument only drives the
structural recursion; `trace_loop` supplies `(max limit 0).toNat + 130`,
which is proved sufficient (the fuel-exhaustion branch is unreachable, see
the fuel-irrelevance lemma). -/
def trace_loop_go {σ : Type} (body : ℕ → σ → BodyStep σ) (limit : ℤ) :
    ℕ → ℕ → ℕ → σ → ℕ → ℕ → σ × ℕ × ℕ
  | 0, _, _, s, iters, opcs => (s, iters, opcs)
  | fuel + 1, bounce, opbounce, s, iters, opcs =>
    if (bounce : ℤ) < limit then
      match body bounce s with
      | .brk s' => (s', iters + 1, opcs)
      | .next s' => trace_loop_go body limit fuel (bounce + 1) opbounce s' (iters + 1) opcs
      | .opskip s' =>
        if 128 < opbounce then (s', iters + 1, opcs)
        else trace_loop_go body limit fuel bounce (opbounce + 1) s' (iters + 1) (opcs + 1)
    else (s, iters, opcs)

/-- Run a tracing loop from `bounce = 0`, `opbounce = 0`. -/
def trace_loop {σ : Type} (body : ℕ → σ → BodyStep σ) (limit : ℤ) (s : σ) : σ × ℕ × ℕ :=
  trace_loop_go body limit ((max limit 0).toNat + 130) 0 0 s 0 0

/-- A default-initialized `material_point`. -/
def default_material : MatPt :=
  ⟨.matte, zero3, zero3, ef 0, ef 0, ef 0, zero3, zero3, ef 0, ef 0⟩

instance : Inhabited MatPt := ⟨default_material⟩

/-- The mutable locals of the integrator loops, gathered in one record (the
integrators that do not use `volume_stack`, `next_emission`,
`next_intersection` or `in_volume` leave them at their initial values; the
head of `volume_stack` is the `back()` of the C++ vector). -/
structure TState where
  radiance : EV3
  weight : EV3
  ray : Ray
  volume_stack : List MatPt
  max_roughness : EF
  hit : Bool
  hit_albedo : EV3
  hit_normal : EV3
  next_emission : Bool
  next_intersection : Isec
  in_volume : Bool
  rng : ℕ

/-- The initialization shared by every integrator. -/
def init_state (ray : Ray) (rng : ℕ) : TState :=
  { radiance := zero3, weight := one3, ray := ray, volume_stack := [],
    max_roughness := ef 0, hit := false, hit_albedo := zero3, hit_normal := zero3,
    next_emission := true, next_intersection := default, in_volume := false, rng := rng }

/-- The volume-transmission prologue shared by `trace_path`,
`trace_pathdirect` and `trace_pathmis`: free-flight sampling against the top
of the volume stack, scaling the throughput by transmittance over pdf.
Returns `(in_volume, intersection, weight, rng)`. -/
def volume_prologue (E : Env) (stack : List MatPt) (intersection : Isec)
    (weight : EV3) (rng : ℕ) : Bool × Isec × EV3 × ℕ :=
  match stack with
  | [] => (false, intersection, weight, rng)
  | vsdf :: _ =>
    let (r1, rng) := rand1f E rng
    let (r2, rng) := rand1f E rng
    let distance := E.sample_transmittance vsdf.density intersection.distance r1 r2
    let weight := weight *
      (E.eval_transmittance vsdf.density distance /
        E.sample_transmittance_pdf vsdf.density distance intersection.distance)
    (efLt distance intersection.distance, { intersection with distance := distance }, weight, rng)

/-- The surface-branch epilogue shared by `trace_path`, `trace_pathdirect`
and `trace_pathmis`: volume-stack update on a transmissive volumetric hit,
ray update, weight check and Russian roulette. `st` already carries the
updated radiance, hit variables, throughput and generator state. -/
def path_tail (E : Env) (bounce : ℕ) (intersection : Isec)
    (position normal outgoing incoming : EV3) (st : TState) : BodyStep TState :=
  let volume_stack :=
    if E.is_volumetric intersection &&
       efLt (dot normal outgoing * dot normal incoming) (ef 0) then
      if st.volume_stack.isEmpty then E.eval_material intersection :: st.volume_stack
      else st.volume_stack.tail
    else st.volume_stack
  let ray : Ray := ⟨position, incoming⟩
  match check_and_roulette E bounce st.weight st.rng with
  | (none, rng) => .brk { st with ray := ray, volume_stack := volume_stack, rng := rng }
  | (some weight, rng) =>
      .next { st with weight := weight, ray := ray, volume_stack := volume_stack, rng := rng }

/-- The in-volume branch shared by `trace_path` and `trace_pathdirect`
(and, with `next_emission := true`, by `trace_pathmis` via
`volume_branch_mis`): scattering or light sampling, throughput update,
weight check and Russian roulette. -/
def volume_branch (E : Env) (L : List TraceLight) (bounce : ℕ)
    (intersection : Isec) (weight0 : EV3) (rng0 : ℕ) (s : TState) : BodyStep TState :=
  let outgoing := -s.ray.d
  let position := s.ray.o + s.ray.d * intersection.distance
  let vsdf := s.volume_stack.headD default_material
  let (rh, rng) := rand1f E rng0
  let (incoming, rng) :=
    if efLt rh (efq 1 2) then
      let (rnl, rng) := rand1f E rng
      let (rn, rng) := rand2f E rng
      (sample_scattering E vsdf outgoing rnl rn, rng)
    else
      let (ra, rng) := rand1f E rng
      let (rb, rng) := rand1f E rng
      let (ruv, rng) := rand2f E rng
      (E.sample_lights position ra rb ruv, rng)
  if ev3beq incoming zero3 then .brk { s with weight := weight0, rng := rng }
  else
    let weight := weight0 *
      (eval_scattering E vsdf outgoing incoming /
        (efq 1 2 * sample_scattering_pdf E vsdf outgoing incoming +
         efq 1 2 * sample_lights_pdf E L position incoming))
    let ray : Ray := ⟨position, incoming⟩
    match check_and_roulette E bounce weight rng with
    | (none, rng) => .brk { s with weight := weight, ray := ray, rng := rng }
    | (some weight, rng) => .next { s with weight := weight, ray := ray, rng := rng }

/-- One iteration of the `trace_path` loop (yocto_trace.cpp, `trace_path`):
one-sample MIS between BSDF and light sampling on smooth surfaces, delta
transport otherwise, with volumetric free flight. -/
def trace_path_body (E : Env) (L : List TraceLight) (p : trace_params)
    (bounce : ℕ) (s : TState) : BodyStep TState :=
  let intersection := E.intersect_scene s.ray
  if !intersection.hit then
    .brk { s with radiance :=
      if (decide (0 < bounce) || !p.envhidden) then
        s.radiance + s.weight * E.eval_environment s.ray.d
      else s.radiance }
  else
    let vres := volume_prologue E s.volume_stack intersection s.weight s.rng
    let in_volume := vres.1
    let intersection := vres.2.1
    let weight := vres.2.2.1
    let rng := vres.2.2.2
    if !in_volume then
      let outgoing := -s.ray.d
      let position := E.eval_shading_position intersection outgoing
      let normal := E.eval_shading_normal intersection outgoing
      let material0 := E.eval_material intersection
      let max_roughness :=
        if p.nocaustics then efMax material0.roughness s.max_roughness else s.max_roughness
      let material :=
        if p.nocaustics then { material0 with roughness := max_roughness } else material0
      let (skip, rng) := opacity_test E material.opacity rng
      if skip then
        .opskip { s with
            weight := weight, max_roughness := max_roughness, rng := rng,
            ray := ⟨position + s.ray.d * efq 1 100, s.ray.d⟩ }
      else
        let hit := if bounce = 0 then true else s.hit
        let hit_albedo := if bounce = 0 then material.color else s.hit_albedo
        let hit_normal := if bounce = 0 then normal else s.hit_normal
        let radiance := s.radiance + weight * eval_emission material normal outgoing
        if !is_delta material then
          let (rh, rng) := rand1f E rng
          let (incoming, rng) :=
            if efLt rh (efq 1 2) then
              let (rnl, rng) := rand1f E rng
              let (rn, rng) := rand2f E rng
              (sample_bsdfcos E material normal outgoing rnl rn, rng)
            else
              let (ra, rng) := rand1f E rng
              let (rb, rng) := rand1f E rng
              let (ruv, rng) := rand2f E rng
              (E.sample_lights position ra rb ruv, rng)
          if ev3beq incoming zero3 then
            .brk { s with
                radiance := radiance, weight := weight, rng := rng, hit := hit,
                hit_albedo := hit_albedo, hit_normal := hit_normal,
                max_roughness := max_roughness }
          else
            let weight := weight *
              (eval_bsdfcos E material normal outgoing incoming /
                (efq 1 2 * sample_bsdfcos_pdf E material normal outgoing incoming +
                 efq 1 2 * sample_lights_pdf E L position incoming))
            path_tail E bounce intersection position normal outgoing incoming
              { s with
                  radiance := radiance, weight := weight, rng := rng, hit := hit,
                  hit_albedo := hit_albedo, hit_normal := hit_normal,
                  max_roughness := max_roughness }
        else
          let (rd, rng) := rand1f E rng
          let incoming := sample_delta E material normal outgoing rd
          let weight := weight *
            (eval_delta E material normal outgoing incoming /
              sample_delta_pdf E material normal outgoing incoming)
          path_tail E bounce intersection position normal outgoing incoming
            { s with
                radiance := radiance, weight := weight, rng := rng, hit := hit,
                hit_albedo := hit_albedo, hit_normal := hit_normal,
                max_roughness := max_roughness }
    else
      volume_branch E L bounce intersection weight rng s

/-- The explicit next-event-estimation block shared by `trace_pathdirect` and
`trace_lightsampling`: one light sample, shadow-ray evaluation of the reached
emission weighted by the light pdf. Returns the updated radiance and
generator state. -/
def direct_block (E : Env) (L : List TraceLight) (material : MatPt)
    (normal outgoing position : EV3) (weight radiance : EV3) (rng : ℕ) : EV3 × ℕ :=
  let (ra, rng) := rand1f E rng
  let (rb, rng) := rand1f E rng
  let (ruv, rng) := rand2f E rng
  let incoming := E.sample_lights position ra rb ruv
  let pdf := sample_lights_pdf E L position incoming
  let bsdfcos := eval_bsdfcos E material normal outgoing incoming
  if !ev3beq bsdfcos zero3 && efLt (ef 0) pdf then
    let intersection := E.intersect_scene ⟨position, incoming⟩
    let emission :=
      if !intersection.hit then E.eval_environment incoming
      else
        eval_emission
          (E.eval_material_at intersection.inst intersection.element intersection.uv)
          (E.eval_shading_normal_at intersection.inst intersection.element
            intersection.uv (-incoming))
          (-incoming)
    (radiance + weight * bsdfcos * emission / pdf, rng)
  else (radiance, rng)

/-- One iteration of the `trace_pathdirect` loop (yocto_trace.cpp,
`trace_pathdirect`): next-event estimation plus indirect continuation, with
the `next_emission` flag preventing double counting. -/
def trace_pathdirect_body (E : Env) (L : List TraceLight) (p : trace_params)
    (bounce : ℕ) (s : TState) : BodyStep TState :=
  let intersection := E.intersect_scene s.ray
  if !intersection.hit then
    .brk { s with radiance :=
      if (decide (0 < bounce) || !p.envhidden) && s.next_emission then
        s.radiance + s.weight * E.eval_environment s.ray.d
      else s.radiance }
  else
    let vres := volume_prologue E s.volume_stack intersection s.weight s.rng
    let in_volume := vres.1
    let intersection := vres.2.1
    let weight := vres.2.2.1
    let rng := vres.2.2.2
    if !in_volume then
      let outgoing := -s.ray.d
      let position := E.eval_shading_position intersection outgoing
      let normal := E.eval_shading_normal intersection outgoing
      let material0 := E.eval_material intersection
      let max_roughness :=
        if p.nocaustics then efMax material0.roughness s.max_roughness else s.max_roughness
      let material :=
        if p.nocaustics then { material0 with roughness := max_roughness } else material0
      let (skip, rng) := opacity_test E material.opacity rng
      if skip then
        .opskip { s with
            weight := weight, max_roughness := max_roughness, rng := rng,
            ray := ⟨position + s.ray.d * efq 1 100, s.ray.d⟩ }
      else
        let hit := if bounce = 0 then true else s.hit
        let hit_albedo := if bounce = 0 then material.color else s.hit_albedo
        let hit_normal := if bounce = 0 then normal else s.hit_normal
        let radiance :=
          if s.next_emission then s.radiance + weight * eval_emission material normal outgoing
          else s.radiance
        let dres :=
          if !is_delta material then
            let (radiance', rng') := direct_block E L material normal outgoing position
              weight radiance rng
            (radiance', false, rng')
          else (radiance, true, rng)
        let radiance := dres.1
        let next_emission := dres.2.1
        let rng := dres.2.2
        if !is_delta material then
          let (rh, rng) := rand1f E rng
          let (incoming, rng) :=
            if efLt rh (efq 1 2) then
              let (rnl, rng) := rand1f E rng
              let (rn, rng) := rand2f E rng
              (sample_bsdfcos E material normal outgoing rnl rn, rng)
            else
              let (ra, rng) := rand1f E rng
              let (rb, rng) := rand1f E rng
              let (ruv, rng) := rand2f E rng
              (E.sample_lights position ra rb ruv, rng)
          if ev3beq incoming zero3 then
            .brk { s with
                radiance := radiance, weight := weight, rng := rng, hit := hit,
                hit_albedo := hit_albedo, hit_normal := hit_normal,
                max_roughness := max_roughness, next_emission := next_emission }
          else
            let weight := weight *
              (eval_bsdfcos E material normal outgoing incoming /
                (efq 1 2 * sample_bsdfcos_pdf E material normal outgoing incoming +
                 efq 1 2 * sample_lights_pdf E L position incoming))
            path_tail E bounce intersection position normal outgoing incoming
              { s with
                  radiance := radiance, weight := weight, rng := rng, hit := hit,
                  hit_albedo := hit_albedo, hit_normal := hit_normal,
                  max_roughness := max_roughness, next_emission := next_emission }
        else
          let (rd, rng) := rand1f E rng
          let incoming := sample_delta E material normal outgoing rd
          if ev3beq incoming zero3 then
            .brk { s with
                radiance := radiance, weight := weight, rng := rng, hit := hit,
                hit_albedo := hit_albedo, hit_normal := hit_normal,
                max_roughness := max_roughness, next_emission := next_emission }
          else
            let weight := weight *
              (eval_delta E material normal outgoing incoming /
                sample_delta_pdf E material normal outgoing incoming)
            path_tail E bounce intersection position normal outgoing incoming
              { s with
                  radiance := radiance, weight := weight, rng := rng, hit := hit,
                  hit_albedo := hit_albedo, hit_normal := hit_normal,
                  max_roughness := max_roughness, next_emission := next_emission }
    else
      volume_branch E L bounce intersection weight rng s

/-- One direct-lighting pass of the `{true, false}` MIS loop of
`trace_pathmis`: evaluate the BSDF, both pdfs and the balance-heuristic
weight for the given `incoming`, and on a nonzero contribution trace the
continuation ray (recording it as `next_intersection` for the BSDF pass)
and add the weighted reached emission. Returns the updated radiance and
`next_intersection`. -/
def mis_direct (E : Env) (L : List TraceLight) (material : MatPt)
    (normal outgoing position weight : EV3) (sample_light : Bool)
    (incoming radiance : EV3) (next_isec : Isec) : EV3 × Isec :=
  let bsdfcos := eval_bsdfcos E material normal outgoing incoming
  let lpdf := sample_lights_pdf E L position incoming
  let bpdf := sample_bsdfcos_pdf E material normal outgoing incoming
  let mis_weight :=
    if sample_light then mis_heuristic lpdf bpdf / lpdf
    else mis_heuristic bpdf lpdf / bpdf
  if !ev3beq bsdfcos zero3 && !efBeq mis_weight (ef 0) then
    let intersection := E.intersect_scene ⟨position, incoming⟩
    let next_isec := if !sample_light then intersection else next_isec
    let emission :=
      if !intersection.hit then E.eval_environment incoming
      else
        eval_emission
          (E.eval_material_at intersection.inst intersection.element intersection.uv)
          (E.eval_shading_normal_at intersection.inst intersection.element
            intersection.uv (-incoming))
          (-incoming)
    (radiance + weight * bsdfcos * emission * mis_weight, next_isec)
  else (radiance, next_isec)

/-- The in-volume branch of `trace_pathmis`: like `volume_branch` but with no
zero-direction check and setting `next_emission` to true. -/
def volume_branch_mis (E : Env) (L : List TraceLight) (bounce : ℕ)
    (intersection : Isec) (weight0 : EV3) (rng0 : ℕ) (s : TState) : BodyStep TState :=
  let outgoing := -s.ray.d
  let position := s.ray.o + s.ray.d * intersection.distance
  let vsdf := s.volume_stack.headD default_material
  let (rh, rng) := rand1f E rng0
  let (incoming, rng) :=
    if efLt rh (efq 1 2) then
      let (rnl, rng) := rand1f E rng
      let (rn, rng) := rand2f E rng
      (sample_scattering E vsdf outgoing rnl rn, rng)
    else
      let (ra, rng) := rand1f E rng
      let (rb, rng) := rand1f E rng
      let (ruv, rng) := rand2f E rng
      (E.sample_lights position ra rb ruv, rng)
  let weight := weight0 *
    (eval_scattering E vsdf outgoing incoming /
      (efq 1 2 * sample_scattering_pdf E vsdf outgoing incoming +
       efq 1 2 * sample_lights_pdf E L position incoming))
  let ray : Ray := ⟨position, incoming⟩
  match check_and_roulette E bounce weight rng with
  | (none, rng) =>
      .brk { s with weight := weight, ray := ray, rng := rng, next_emission := true }
  | (some weight, rng) =>
      .next { s with weight := weight, ray := ray, rng := rng, next_emission := true }

/-- One iteration of the `trace_pathmis` loop (yocto_trace.cpp,
`trace_pathmis`): full multi-sample MIS, both a light sample and a BSDF
sample weighted by the balance heuristic every smooth bounce, reusing the
BSDF-sample intersection for the next bounce via `next_intersection`. -/
def trace_pathmis_body (E : Env) (L : List TraceLight) (p : trace_params)
    (bounce : ℕ) (s : TState) : BodyStep TState :=
  let intersection := if s.next_emission then E.intersect_scene s.ray else s.next_intersection
  if !intersection.hit then
    .brk { s with radiance :=
      if (decide (0 < bounce) || !p.envhidden) && s.next_emission then
        s.radiance + s.weight * E.eval_environment s.ray.d
      else s.radiance }
  else
    let vres := volume_prologue E s.volume_stack intersection s.weight s.rng
    let in_volume := vres.1
    let intersection := vres.2.1
    let weight := vres.2.2.1
    let rng := vres.2.2.2
    if !in_volume then
      let outgoing := -s.ray.d
      let position := E.eval_shading_position intersection outgoing
      let normal := E.eval_shading_normal intersection outgoing
      let material0 := E.eval_material intersection
      let max_roughness :=
        if p.nocaustics then efMax material0.roughness s.max_roughness else s.max_roughness
      let material :=
        if p.nocaustics then { material0 with roughness := max_roughness } else material0
      let (skip, rng) := opacity_test E material.opacity rng
      if skip then
        .opskip { s with
            weight := weight, max_roughness := max_roughness, rng := rng,
            ray := ⟨position + s.ray.d * efq 1 100, s.ray.d⟩ }
      else
        let hit := if bounce = 0 then true else s.hit
        let hit_albedo := if bounce = 0 then material.color else s.hit_albedo
        let hit_normal := if bounce = 0 then normal else s.hit_normal
        let radiance :=
          if s.next_emission then s.radiance + weight * eval_emission material normal outgoing
          else s.radiance
        if !is_delta material then
          let indirect := fun (incoming radiance : EV3) (next_isec : Isec) (rng : ℕ) =>
            let weight := weight *
              (eval_bsdfcos E material normal outgoing incoming /
                sample_bsdfcos_pdf E material normal outgoing incoming)
            path_tail E bounce intersection position normal outgoing incoming
              { s with
                  radiance := radiance, weight := weight, rng := rng, hit := hit,
                  hit_albedo := hit_albedo, hit_normal := hit_normal,
                  max_roughness := max_roughness, next_emission := false,
                  next_intersection := next_isec }
          let (ra, rng) := rand1f E rng
          let (rb, rng) := rand1f E rng
          let (ruv, rng) := rand2f E rng
          let inc1 := E.sample_lights position ra rb ruv
          if ev3beq inc1 zero3 then
            indirect inc1 radiance s.next_intersection rng
          else
            let d1 := mis_direct E L material normal outgoing position weight true
              inc1 radiance s.next_intersection
            let (rnl, rng) := rand1f E rng
            let (rn, rng) := rand2f E rng
            let inc2 := sample_bsdfcos E material normal outgoing rnl rn
            if ev3beq inc2 zero3 then
              indirect inc2 d1.1 d1.2 rng
            else
              let d2 := mis_direct E L material normal outgoing position weight false
                inc2 d1.1 d1.2
              indirect inc2 d2.1 d2.2 rng
        else
          let (rd, rng) := rand1f E rng
          let incoming := sample_delta E material normal outgoing rd
          let weight := weight *
            (eval_delta E material normal outgoing incoming /
              sample_delta_pdf E material normal outgoing incoming)
          path_tail E bounce intersection position normal outgoing incoming
            { s with
                radiance := radiance, weight := weight, rng := rng, hit := hit,
                hit_albedo := hit_albedo, hit_normal := hit_normal,
                max_roughness := max_roughness, next_emission := true }
    else
      volume_branch_mis E L bounce intersection weight rng s

/-- One iteration of the `trace_pathtest` loop (yocto_trace.cpp,
`trace_pathtest`): like `trace_path` on surfaces, but with the material type
forced to matte, and with no opacity handling and no volumes. -/
def trace_pathtest_body (E : Env) (L : List TraceLight) (p : trace_params)
    (bounce : ℕ) (s : TState) : BodyStep TState :=
  let intersection := E.intersect_scene s.ray
  if !intersection.hit then
    .brk { s with radiance :=
      if (decide (0 < bounce) || !p.envhidden) then
        s.radiance + s.weight * E.eval_environment s.ray.d
      else s.radiance }
  else
    let outgoing := -s.ray.d
    let position := E.eval_shading_position intersection outgoing
    let normal := E.eval_shading_normal intersection outgoing
    let material := { E.eval_material intersection with type := MType.matte }
    let hit := if bounce = 0 then true else s.hit
    let hit_albedo := if bounce = 0 then material.color else s.hit_albedo
    let hit_normal := if bounce = 0 then normal else s.hit_normal
    let radiance := s.radiance + s.weight * eval_emission material normal outgoing
    let rng := s.rng
    let finish := fun (weight : EV3) (incoming : EV3) (rng : ℕ) =>
      let ray : Ray := ⟨position, incoming⟩
      match check_and_roulette E bounce weight rng with
      | (none, rng) =>
          BodyStep.brk { s with
            radiance := radiance, weight := weight, ray := ray, rng := rng, hit := hit,
            hit_albedo := hit_albedo, hit_normal := hit_normal }
      | (some weight, rng) =>
          BodyStep.next { s with
            radiance := radiance, weight := weight, ray := ray, rng := rng, hit := hit,
            hit_albedo := hit_albedo, hit_normal := hit_normal }
    if !is_delta material then
      let (rh, rng) := rand1f E rng
      let (incoming, rng) :=
        if efLt rh (efq 1 2) then
          let (rnl, rng) := rand1f E rng
          let (rn, rng) := rand2f E rng
          (sample_bsdfcos E material normal outgoing rnl rn, rng)
        else
          let (ra, rng) := rand1f E rng
          let (rb, rng) := rand1f E rng
          let (ruv, rng) := rand2f E rng
          (E.sample_lights position ra rb ruv, rng)
      if ev3beq incoming zero3 then
        .brk { s with
          radiance := radiance, weight := s.weight, rng := rng, hit := hit,
          hit_albedo := hit_albedo, hit_normal := hit_normal }
      else
        let weight := s.weight *
          (eval_bsdfcos E material normal outgoing incoming /
            (efq 1 2 * sample_bsdfcos_pdf E material normal outgoing incoming +
             efq 1 2 * sample_lights_pdf E L position incoming))
        finish weight incoming rng
    else
      let (rd, rng) := rand1f E rng
      let incoming := sample_delta E material normal outgoing rd
      let weight := s.weight *
        (eval_delta E material normal outgoing incoming /
          sample_delta_pdf E material normal outgoing incoming)
      finish weight incoming rng

/-- One iteration of the `trace_lightsampling` loop (yocto_trace.cpp,
`trace_lightsampling`): next-event estimation plus BSDF-sampled indirect
continuation (branching on `roughness != 0` rather than `is_delta`), with
the `next_emission` flag preventing double counting; no volumes. -/
def trace_lightsampling_body (E : Env) (L : List TraceLight) (p : trace_params)
    (bounce : ℕ) (s : TState) : BodyStep TState :=
  let intersection := E.intersect_scene s.ray
  if !intersection.hit then
    .brk { s with radiance :=
      if (decide (0 < bounce) || !p.envhidden) && s.next_emission then
        s.radiance + s.weight * E.eval_environment s.ray.d
      else s.radiance }
  else
    let outgoing := -s.ray.d
    let position := E.eval_shading_position intersection outgoing
    let normal := E.eval_shading_normal intersection outgoing
    let material := E.eval_material intersection
    let (skip, rng) := opacity_test E material.opacity s.rng
    if skip then
      .opskip { s with
          rng := rng, ray := ⟨position + s.ray.d * efq 1 100, s.ray.d⟩ }
    else
      let hit := if bounce = 0 then true else s.hit
      let hit_albedo := if bounce = 0 then material.color else s.hit_albedo
      let hit_normal := if bounce = 0 then normal else s.hit_normal
      let radiance :=
        if s.next_emission then s.radiance + s.weight * eval_emission material normal outgoing
        else s.radiance
      let dres :=
        if !is_delta material then
          let (radiance', rng') := direct_block E L material normal outgoing position
            s.weight radiance rng
          (radiance', false, rng')
        else (radiance, true, rng)
      let radiance := dres.1
      let next_emission := dres.2.1
      let rng := dres.2.2
      let finish := fun (weight incoming : EV3) (rng : ℕ) =>
        match check_and_roulette E bounce weight rng with
        | (none, rng) =>
            BodyStep.brk { s with
              radiance := radiance, weight := weight, rng := rng, hit := hit,
              hit_albedo := hit_albedo, hit_normal := hit_normal,
              next_emission := next_emission }
        | (some weight, rng) =>
            BodyStep.next { s with
              radiance := radiance, weight := weight, rng := rng, hit := hit,
              hit_albedo := hit_albedo, hit_normal := hit_normal,
              next_emission := next_emission, ray := ⟨position, incoming⟩ }
      if !efBeq material.roughness (ef 0) then
        let (rnl, rng) := rand1f E rng
        let (rn, rng) := rand2f E rng
        let incoming := sample_bsdfcos E material normal outgoing rnl rn
        if ev3beq incoming zero3 then
          .brk { s with
            radiance := radiance, weight := s.weight, rng := rng, hit := hit,
            hit_albedo := hit_albedo, hit_normal := hit_normal,
            next_emission := next_emission }
        else
          let weight := s.weight *
            (eval_bsdfcos E material normal outgoing incoming /
              sample_bsdfcos_pdf E material normal outgoing incoming)
          finish weight incoming rng
      else
        let (rd, rng) := rand1f E rng
        let incoming := sample_delta E material normal outgoing rd
        if ev3beq incoming zero3 then
          .brk { s with
            radiance := radiance, weight := s.weight, rng := rng, hit := hit,
            hit_albedo := hit_albedo, hit_normal := hit_normal,
            next_emission := next_emission }
        else
          let weight := s.weight *
            (eval_delta E material normal outgoing incoming /
              sample_delta_pdf E material normal outgoing incoming)
          finish weight incoming rng

/-- One iteration of the `trace_naive` loop (yocto_trace.cpp, `trace_naive`):
BSDF-importance sampling only, no explicit light sampling, no volumes. -/
def trace_naive_body (E : Env) (L : List TraceLight) (p : trace_params)
    (bounce : ℕ) (s : TState) : BodyStep TState :=
  let intersection := E.intersect_scene s.ray
  if !intersection.hit then
    .brk { s with radiance :=
      if (decide (0 < bounce) || !p.envhidden) then
        s.radiance + s.weight * E.eval_environment s.ray.d
      else s.radiance }
  else
    let outgoing := -s.ray.d
    let position := E.eval_shading_position intersection outgoing
    let normal := E.eval_shading_normal intersection outgoing
    let material := E.eval_material intersection
    let (skip, rng) := opacity_test E material.opacity s.rng
    if skip then
      .opskip { s with
          rng := rng, ray := ⟨position + s.ray.d * efq 1 100, s.ray.d⟩ }
    else
      let hit := if bounce = 0 then true else s.hit
      let hit_albedo := if bounce = 0 then material.color else s.hit_albedo
      let hit_normal := if bounce = 0 then normal else s.hit_normal
      let radiance := s.radiance + s.weight * eval_emission material normal outgoing
      let finish := fun (weight incoming : EV3) (rng : ℕ) =>
        match check_and_roulette E bounce weight rng with
        | (none, rng) =>
            BodyStep.brk { s with
              radiance := radiance, weight := weight, rng := rng, hit := hit,
              hit_albedo := hit_albedo, hit_normal := hit_normal }
        | (some weight, rng) =>
            BodyStep.next { s with
              radiance := radiance, weight := weight, rng := rng, hit := hit,
              hit_albedo := hit_albedo, hit_normal := hit_normal,
              ray := ⟨position, incoming⟩ }
      if !is_delta material then
        let (rnl, rng) := rand1f E rng
        let (rn, rng) := rand2f E rng
        let incoming := sample_bsdfcos E material normal outgoing rnl rn
        if ev3beq incoming zero3 then
          .brk { s with
            radiance := radiance, weight := s.weight, rng := rng, hit := hit,
            hit_albedo := hit_albedo, hit_normal := hit_normal }
        else
          let weight := s.weight *
            (eval_bsdfcos E material normal outgoing incoming /
              sample_bsdfcos_pdf E material normal outgoing incoming)
          finish weight incoming rng
      else
        let (rd, rng) := rand1f E rng
        let incoming := sample_delta E material normal outgoing rd
        if ev3beq incoming zero3 then
          .brk { s with
            radiance := radiance, weight := s.weight, rng := rng, hit := hit,
            hit_albedo := hit_albedo, hit_normal := hit_normal }
        else
          let weight := s.weight *
            (eval_delta E material normal outgoing incoming /
              sample_delta_pdf E material normal outgoing incoming)
          finish weight incoming rng

/-- One iteration of the `trace_eyelight` loop (yocto_trace.cpp,
`trace_eyelight`): emission plus `weight * pif * eval_bsdfcos` evaluated at
`incoming = outgoing`; the path continues only through delta materials. -/
def trace_eyelight_body (E : Env) (L : List TraceLight) (p : trace_params)
    (bounce : ℕ) (s : TState) : BodyStep TState :=
  let intersection := E.intersect_scene s.ray
  if !intersection.hit then
    .brk { s with radiance :=
      if (decide (0 < bounce) || !p.envhidden) then
        s.radiance + s.weight * E.eval_environment s.ray.d
      else s.radiance }
  else
    let outgoing := -s.ray.d
    let position := E.eval_shading_position intersection outgoing
    let normal := E.eval_shading_normal intersection outgoing
    let material := E.eval_material intersection
    let (skip, rng) := opacity_test E material.opacity s.rng
    if skip then
      .opskip { s with
          rng := rng, ray := ⟨position + s.ray.d * efq 1 100, s.ray.d⟩ }
    else
      let hit := if bounce = 0 then true else s.hit
      let hit_albedo := if bounce = 0 then material.color else s.hit_albedo
      let hit_normal := if bounce = 0 then normal else s.hit_normal
      let incoming := outgoing
      let radiance := s.radiance + s.weight * eval_emission material normal outgoing
      let radiance := radiance +
        s.weight * pif * eval_bsdfcos E material normal outgoing incoming
      if !is_delta material then
        .brk { s with
          radiance := radiance, rng := rng, hit := hit,
          hit_albedo := hit_albedo, hit_normal := hit_normal }
      else
        let (rd, rng) := rand1f E rng
        let incoming := sample_delta E material normal outgoing rd
        if ev3beq incoming zero3 then
          .brk { s with
            radiance := radiance, rng := rng, hit := hit,
            hit_albedo := hit_albedo, hit_normal := hit_normal }
        else
          let weight := s.weight *
            (eval_delta E material normal outgoing incoming /
              sample_delta_pdf E material normal outgoing incoming)
          if weight_invalid weight then
            .brk { s with
              radiance := radiance, weight := weight, rng := rng, hit := hit,
              hit_albedo := hit_albedo, hit_normal := hit_normal }
          else
            .next { s with
              radiance := radiance, weight := weight, rng := rng, hit := hit,
              hit_albedo := hit_albedo, hit_normal := hit_normal,
              ray := ⟨position, incoming⟩ }

/-- One iteration of the `trace_furnace` loop (yocto_trace.cpp,
`trace_furnace`): the white-furnace energy-conservation test, terminating
into the environment after the first bounce unless inside a medium, with the
`in_volume` flag flipped on normal-sign changes. -/
def trace_furnace_body (E : Env) (L : List TraceLight) (p : trace_params)
    (bounce : ℕ) (s : TState) : BodyStep TState :=
  if (decide (0 < bounce) && !s.in_volume) then
    .brk { s with radiance := s.radiance + s.weight * E.eval_environment s.ray.d }
  else
    let intersection := E.intersect_scene s.ray
    if !intersection.hit then
      .brk { s with radiance :=
        if (decide (0 < bounce) || !p.envhidden) then
          s.radiance + s.weight * E.eval_environment s.ray.d
        else s.radiance }
    else
      let outgoing := -s.ray.d
      let element := intersection.element
      let uv := intersection.uv
      let position := E.eval_position_at intersection.inst element uv
      let normal := E.eval_shading_normal_at intersection.inst element uv outgoing
      let material := E.eval_material_at intersection.inst element uv
      let (skip, rng) := opacity_test E material.opacity s.rng
      if skip then
        .opskip { s with
            rng := rng, ray := ⟨position + s.ray.d * efq 1 100, s.ray.d⟩ }
      else
        let hit := if bounce = 0 then true else s.hit
        let hit_albedo := if bounce = 0 then material.color else s.hit_albedo
        let hit_normal := if bounce = 0 then normal else s.hit_normal
        let radiance := s.radiance + s.weight * eval_emission material normal outgoing
        let finish := fun (weight incoming : EV3) (rng : ℕ) =>
          match check_and_roulette E bounce weight rng with
          | (none, rng) =>
              BodyStep.brk { s with
                radiance := radiance, weight := weight, rng := rng, hit := hit,
                hit_albedo := hit_albedo, hit_normal := hit_normal }
          | (some weight, rng) =>
              BodyStep.next { s with
                radiance := radiance, weight := weight, rng := rng, hit := hit,
                hit_albedo := hit_albedo, hit_normal := hit_normal,
                in_volume :=
                  if efLt (dot normal outgoing * dot normal incoming) (ef 0) then
                    !s.in_volume
                  else s.in_volume,
                ray := ⟨position, incoming⟩ }
        if !efBeq material.roughness (ef 0) then
          let (rnl, rng) := rand1f E rng
          let (rn, rng) := rand2f E rng
          let incoming := sample_bsdfcos E material normal outgoing rnl rn
          if ev3beq incoming zero3 then
            .brk { s with
              radiance := radiance, weight := s.weight, rng := rng, hit := hit,
              hit_albedo := hit_albedo, hit_normal := hit_normal }
          else
            let weight := s.weight *
              (eval_bsdfcos E material normal outgoing incoming /
                sample_bsdfcos_pdf E material normal outgoing incoming)
            finish weight incoming rng
        else
          let (rd, rng) := rand1f E rng
          let incoming := sample_delta E material normal outgoing rd
          if ev3beq incoming zero3 then
            .brk { s with
              radiance := radiance, weight := s.weight, rng := rng, hit := hit,
              hit_albedo := hit_albedo, hit_normal := hit_normal }
          else
            let weight := s.weight *
              (eval_delta E material normal outgoing incoming /
                sample_delta_pdf E material normal outgoing incoming)
            finish weight incoming rng

/-- Extract the `trace_result` from the final loop state. -/
def result_of (s : TState) : TraceResult := ⟨s.radiance, s.hit, s.hit_albedo, s.hit_normal⟩

/-- The full loop of `trace_path`: state plus iteration/continuation counts. -/
def trace_path_run (E : Env) (L : List TraceLight) (p : trace_params)
    (ray : Ray) (rng : ℕ) : TState × ℕ × ℕ :=
  trace_loop (trace_path_body E L p) p.bounces (init_state ray rng)

/-- `trace_path`, returning the result and the final generator state. -/
def trace_path (E : Env) (L : List TraceLight) (p : trace_params)
    (ray : Ray) (rng : ℕ) : TraceResult × ℕ :=
  let s := (trace_path_run E L p ray rng).1
  (result_of s, s.rng)

/-- Number of loop iterations executed by `trace_path`. -/
def trace_path_iters (E : Env) (L : List TraceLight) (p : trace_params)
    (ray : Ray) (rng : ℕ) : ℕ := (trace_path_run E L p ray rng).2.1

/-- Number of opacity continuations executed by `trace_path`. -/
def trace_path_opcs (E : Env) (L : List TraceLight) (p : trace_params)
    (ray : Ray) (rng : ℕ) : ℕ := (trace_path_run E L p ray rng).2.2

/-- The full loop of `trace_pathdirect`. -/
def trace_pathdirect_run (E : Env) (L : List TraceLight) (p : trace_params)
    (ray : Ray) (rng : ℕ) : TState × ℕ × ℕ :=
  trace_loop (trace_pathdirect_body E L p) p.bounces (init_state ray rng)

/-- `trace_pathdirect`. -/
def trace_pathdirect (E : Env) (L : List TraceLight) (p : trace_params)
    (ray : Ray) (rng : ℕ) : TraceResult × ℕ :=
  let s := (trace_pathdirect_run E L p ray rng).1
  (result_of s, s.rng)

/-- Number of loop iterations executed by `trace_pathdirect`. -/
def trace_pathdirect_iters (E : Env) (L : List TraceLight) (p : trace_params)
    (ray : Ray) (rng : ℕ) : ℕ := (trace_pathdirect_run E L p ray rng).2.1

/-- Number of opacity continuations executed by `trace_pathdirect`. -/
def trace_pathdirect_opcs (E : Env) (L : List TraceLight) (p : trace_params)
    (ray : Ray) (rng : ℕ) : ℕ := (trace_pathdirect_run E L p ray rng).2.2

/-- The full loop of `trace_pathmis`. -/
def trace_pathmis_run (E : Env) (L : List TraceLight) (p : trace_params)
    (ray : Ray) (rng : ℕ) : TState × ℕ × ℕ :=
  trace_loop (trace_pathmis_body E L p) p.bounces (init_state ray rng)

/-- `trace_pathmis`. -/
def trace_pathmis (E : Env) (L : List TraceLight) (p : trace_params)
    (ray : Ray) (rng : ℕ) : TraceResult × ℕ :=
  let s := (trace_pathmis_run E L p ray rng).1
  (result_of s, s.rng)

/-- Number of loop iterations executed by `trace_pathmis`. -/
def trace_pathmis_iters (E : Env) (L : List TraceLight) (p : trace_params)
    (ray : Ray) (rng : ℕ) : ℕ := (trace_pathmis_run E L p ray rng).2.1

/-- Number of opacity continuations executed by `trace_pathmis`. -/
def trace_pathmis_opcs (E : Env) (L : List TraceLight) (p : trace_params)
    (ray : Ray) (rng : ℕ) : ℕ := (trace_pathmis_run E L p ray rng).2.2

/-- The full loop of `trace_pathtest`. -/
def trace_pathtest_run (E : Env) (L : List TraceLight) (p : trace_params)
    (ray : Ray) (rng : ℕ) : TState × ℕ × ℕ :=
  trace_loop (trace_pathtest_body E L p) p.bounces (init_state ray rng)

/-- `trace_pathtest`. -/
def trace_pathtest (E : Env) (L : List TraceLight) (p : trace_params)
    (ray : Ray) (rng : ℕ) : TraceResult × ℕ :=
  let s := (trace_pathtest_run E L p ray rng).1
  (result_of s, s.rng)

/-- The full loop of `trace_lightsampling`. -/
def trace_lightsampling_run (E : Env) (L : List TraceLight) (p : trace_params)
    (ray : Ray) (rng : ℕ) : TState × ℕ × ℕ :=
  trace_loop (trace_lightsampling_body E L p) p.bounces (init_state ray rng)

/-- `trace_lightsampling`. -/
def trace_lightsampling (E : Env) (L : List TraceLight) (p : trace_params)
    (ray : Ray) (rng : ℕ) : TraceResult × ℕ :=
  let s := (trace_lightsampling_run E L p ray rng).1
  (result_of s, s.rng)

/-- Number of loop iterations executed by `trace_lightsampling`. -/
def trace_lightsampling_iters (E : Env) (L : List TraceLight) (p : trace_params)
    (ray : Ray) (rng : ℕ) : ℕ := (trace_lightsampling_run E L p ray rng).2.1

/-- Number of opacity continuations executed by `trace_lightsampling`. -/
def trace_lightsampling_opcs (E : Env) (L : List TraceLight) (p : trace_params)
    (ray : Ray) (rng : ℕ) : ℕ := (trace_lightsampling_run E L p ray rng).2.2

/-- The full loop of `trace_naive`. -/
def trace_naive_run (E : Env) (L : List TraceLight) (p : trace_params)
    (ray : Ray) (rng : ℕ) : TState × ℕ × ℕ :=
  trace_loop (trace_naive_body E L p) p.bounces (init_state ray rng)

/-- `trace_naive`. -/
def trace_naive (E : Env) (L : List TraceLight) (p : trace_params)
    (ray : Ray) (rng : ℕ) : TraceResult × ℕ :=
  let s := (trace_naive_run E L p ray rng).1
  (result_of s, s.rng)

/-- Number of loop iterations executed by `trace_naive`. -/
def trace_naive_iters (E : Env) (L : List TraceLight) (p : trace_params)
    (ray : Ray) (rng : ℕ) : ℕ := (trace_naive_run E L p ray rng).2.1

/-- Number of opacity continuations executed by `trace_naive`. -/
def trace_naive_opcs (E : Env) (L : List TraceLight) (p : trace_params)
    (ray : Ray) (rng : ℕ) : ℕ := (trace_naive_run E L p ray rng).2.2

/-- The full loop of `trace_eyelight`; note the loop bound
`max(params.bounces, 4)` of the source. -/
def trace_eyelight_run (E : Env) (L : List TraceLight) (p : trace_params)
    (ray : Ray) (rng : ℕ) : TState × ℕ × ℕ :=
  trace_loop (trace_eyelight_body E L p) (max p.bounces 4) (init_state ray rng)

/-- `trace_eyelight`. -/
def trace_eyelight (E : Env) (L : List TraceLight) (p : trace_params)
    (ray : Ray) (rng : ℕ) : TraceResult × ℕ :=
  let s := (trace_eyelight_run E L p ray rng).1
  (result_of s, s.rng)

/-- Number of loop iterations executed by `trace_eyelight`. -/
def trace_eyelight_iters (E : Env) (L : List TraceLight) (p : trace_params)
    (ray : Ray) (rng : ℕ) : ℕ := (trace_eyelight_run E L p ray rng).2.1

/-- Number of opacity continuations executed by `trace_eyelight`. -/
def trace_eyelight_opcs (E : Env) (L : List TraceLight) (p : trace_params)
    (ray : Ray) (rng : ℕ) : ℕ := (trace_eyelight_run E L p ray rng).2.2

/-- The full loop of `trace_furnace`. -/
def trace_furnace_run (E : Env) (L : List TraceLight) (p : trace_params)
    (ray : Ray) (rng : ℕ) : TState × ℕ × ℕ :=
  trace_loop (trace_furnace_body E L p) p.bounces (init_state ray rng)

/-- `trace_furnace`. -/
def trace_furnace (E : Env) (L : List TraceLight) (p : trace_params)
    (ray : Ray) (rng : ℕ) : TraceResult × ℕ :=
  let s := (trace_furnace_run E L p ray rng).1
  (result_of s, s.rng)

/-- Number of loop iterations executed by `trace_furnace`. -/
def trace_furnace_iters (E : Env) (L : List TraceLight) (p : trace_params)
    (ray : Ray) (rng : ℕ) : ℕ := (trace_furnace_run E L p ray rng).2.1

/-- Number of opacity continuations executed by `trace_furnace`. -/
def trace_furnace_opcs (E : Env) (L : List TraceLight) (p : trace_params)
    (ray : Ray) (rng : ℕ) : ℕ := (trace_furnace_run E L p ray rng).2.2

/-- Translation of `trace_falsecolor` (yocto_trace.cpp): non-stochastic
single-intersection debug visualization, selected by `params.falsecolor`;
the `default` label of the source switch yields `{0, 0, 0}`. -/
def trace_falsecolor (E : Env) (L : List TraceLight) (p : trace_params)
    (ray : Ray) (rng : ℕ) : TraceResult × ℕ :=
  let _ := L
  let intersection := E.intersect_scene ray
  if !intersection.hit then (⟨zero3, false, zero3, zero3⟩, rng)
  else
    let outgoing := -ray.d
    let position := E.eval_shading_position intersection outgoing
    let normal := E.eval_shading_normal intersection outgoing
    let gnormal := E.eval_element_normal intersection
    let texcoord := E.eval_texcoord intersection
    let material := E.eval_material intersection
    let delta := if is_delta material then ef 1 else ef 0
    let result : EV3 :=
      match p.falsecolor with
      | .position => position * efq 1 2 + efq 1 2
      | .normal => normal * efq 1 2 + efq 1 2
      | .frontfacing =>
          if efLt (ef 0) (dot normal (-ray.d)) then ⟨ef 0, ef 1, ef 0⟩ else ⟨ef 1, ef 0, ef 0⟩
      | .gnormal => gnormal * efq 1 2 + efq 1 2
      | .gfrontfacing =>
          if efLt (ef 0) (dot gnormal (-ray.d)) then ⟨ef 0, ef 1, ef 0⟩ else ⟨ef 1, ef 0, ef 0⟩
      | .mtype => E.hashed_color (mtype_code material.type)
      | .texcoord => ⟨E.fmod texcoord.1 (ef 1), E.fmod texcoord.2 (ef 1), ef 0⟩
      | .color => material.color
      | .emission => material.emission
      | .roughness => ⟨material.roughness, material.roughness, material.roughness⟩
      | .opacity => ⟨material.opacity, material.opacity, material.opacity⟩
      | .metallic => ⟨material.metallic, material.metallic, material.metallic⟩
      | .delta => ⟨delta, delta, delta⟩
      | .element => E.hashed_color intersection.element
      | .instance_id => E.hashed_color intersection.inst
      | .shape => E.hashed_color (E.instances intersection.inst).shape
      | .material => E.hashed_color (E.instances intersection.inst).material
      | .highlight =>
          let memission :=
            if ev3beq material.emission zero3 then (⟨efq 1 5, efq 1 5, efq 1 5⟩ : EV3)
            else material.emission
          memission * efAbs (dot (-ray.d) normal)
      | .unknown _ => zero3
    (⟨E.srgb_to_rgb result, true, material.color, normal⟩, rng)

/-- Translation of `get_trace_sampler_func` (yocto_trace.cpp): the dispatch
switch over the sampler enum; the `default` label throws
`std::runtime_error("sampler unknown")`, modelled as `Except.error`. -/
def get_trace_sampler_func (p : trace_params) : Except String SamplerFn :=
  match p.sampler with
  | .path => .ok .path
  | .pathdirect => .ok .pathdirect
  | .pathmis => .ok .pathmis
  | .pathtest => .ok .pathtest
  | .lightsampling => .ok .lightsampling
  | .naive => .ok .naive
  | .eyelight => .ok .eyelight
  | .furnace => .ok .furnace
  | .falsecolor => .ok .falsecolor
  | .unknown _ => .error "sampler unknown"

/-- Translation of `is_sampler_lit` (yocto_trace.cpp): note that the switch
has no `lightsampling` and no `pathtest` case, so both fall to the `default`
label and throw `std::runtime_error("sampler unknown")`. -/
def is_sampler_lit (p : trace_params) : Except String Bool :=
  match p.sampler with
  | .path => .ok true
  | .pathdirect => .ok true
  | .pathmis => .ok true
  | .naive => .ok true
  | .eyelight => .ok false
  | .furnace => .ok true
  | .falsecolor => .ok false
  | _ => .error "sampler unknown"

/-- Apply the integrator designated by a `SamplerFn` value. -/
def apply_sampler : SamplerFn → Env → List TraceLight → trace_params → Ray → ℕ → TraceResult × ℕ
  | .path => trace_path
  | .pathdirect => trace_pathdirect
  | .pathmis => trace_pathmis
  | .pathtest => trace_pathtest
  | .lightsampling => trace_lightsampling
  | .naive => trace_naive
  | .eyelight => trace_eyelight
  | .furnace => trace_furnace
  | .falsecolor => trace_falsecolor

/-- The radiance post-processing of `trace_sample` (yocto_trace.cpp): a
non-finite radiance is replaced by zero, then a radiance whose largest
component exceeds `params.clamp` is rescaled by `clamp / max(radiance)`. -/
def trace_sample_clamp (radiance : EV3) (clampv : EF) : EV3 :=
  let radiance := if !ev3IsFinite radiance then zero3 else radiance
  if efLt clampv (ev3max radiance) then radiance * (clampv / ev3max radiance)
  else radiance

/-- The per-pixel slice of the render state: accumulators and the pixel's
private generator state. -/
structure PixelState where
  render : EV4
  albedo : EV3
  normal : EV3
  hits : ℤ
  rng : ℕ
deriving DecidableEq

/-- Translation of `trace_sample` (yocto_trace.cpp) acting on one pixel:
sampler dispatch (an unknown sampler propagates the thrown error), camera-ray
sampling, integration, clamping, and accumulation of the running means. -/
def trace_sample (E : Env) (L : List TraceLight) (p : trace_params)
    (ij image_size : ℤ × ℤ) (sample : ℤ) (px : PixelState) : Except String PixelState :=
  match get_trace_sampler_func p with
  | .error e => .error e
  | .ok fn =>
    let (puv, rng) := rand2f E px.rng
    let (luv, rng) := rand2f E rng
    let ray := sample_camera E p.camera ij image_size puv luv p.tentfilter
    let (res, rng) := apply_sampler fn E L p ray rng
    let radiance := trace_sample_clamp res.radiance p.clamp
    let weight := ef 1 / ef (sample + 1)
    if res.hit then
      .ok { render := lerp4 px.render ⟨radiance.x, radiance.y, radiance.z, ef 1⟩ weight,
            albedo := lerp3 px.albedo res.albedo weight,
            normal := lerp3 px.normal res.normal weight,
            hits := px.hits + 1, rng := rng }
    else if !p.envhidden && !E.environments_empty then
      .ok { render := lerp4 px.render ⟨radiance.x, radiance.y, radiance.z, ef 1⟩ weight,
            albedo := lerp3 px.albedo one3 weight,
            normal := lerp3 px.normal (-ray.d) weight,
            hits := px.hits + 1, rng := rng }
    else
      .ok { render := lerp4 px.render zero4 weight,
            albedo := lerp3 px.albedo zero3 weight,
            normal := lerp3 px.normal (-ray.d) weight,
            hits := px.hits, rng := rng }

/-- The render state: accumulated sample count, image size, per-pixel
accumulators, and the optional denoised buffer. -/
structure RenderState where
  samples : ℤ
  sizex : ℤ
  sizey : ℤ
  pixels : List PixelState
  denoised : Option (List EV4)
deriving DecidableEq

/-- The sequential pixel-rng seeding loop of `make_trace_state`: one draw of
`rand1i(rng_, 1 << 31) / 2 + 1` per pixel from a master generator seeded with
1301081, each seeding that pixel's generator together with `params.seed`. -/
def make_seeds (E : Env) (seed : ℕ) : ℕ → ℕ → List ℕ
  | 0, _ => []
  | n + 1, r =>
    let (v, r') := rand1i E r (2 ^ 31)
    E.mk_rng seed (v / 2 + 1) :: make_seeds E seed n r'

/-- Translation of `make_trace_state` (yocto_trace.cpp): resolution from the
camera aspect, zeroed accumulators, deterministically seeded per-pixel
generators, and the optional denoised buffer. -/
def make_trace_state (E : Env) (p : trace_params) : RenderState :=
  let camera := E.cameras.getD p.camera.toNat default
  let resolution : ℤ × ℤ :=
    if efLe (ef 1) camera.aspect then
      (p.resolution, efRoundInt (ef p.resolution / camera.aspect))
    else
      (efRoundInt (ef p.resolution * camera.aspect), p.resolution)
  let npix := (resolution.1 * resolution.2).toNat
  let seeds := make_seeds E p.seed npix (E.mk_rng1 1301081)
  { samples := 0, sizex := resolution.1, sizey := resolution.2,
    pixels := seeds.map (fun sd =>
      { render := zero4, albedo := zero3, normal := zero3, hits := 0, rng := sd }),
    denoised := if p.denoise then some (List.replicate npix zero4) else none }

/-- The integer range `[a, b)` as a list. -/
def sample_range (a b : ℤ) : List ℤ := (List.range (b - a).toNat).map (fun k => a + k)

/-- The render buffer of a state. -/
def render_of (st : RenderState) : List EV4 := st.pixels.map (fun px => px.render)

/-- The albedo buffer of a state. -/
def albedo_of (st : RenderState) : List EV3 := st.pixels.map (fun px => px.albedo)

/-- The normal buffer of a state. -/
def normal_of (st : RenderState) : List EV3 := st.pixels.map (fun px => px.normal)

/-- The unguarded body of `trace_samples` (yocto_trace.cpp): for every pixel
in row-major order, one `trace_sample` per sample index in
`[samples, samples + batch)`, then the sample counter advances by `batch` and
the denoised buffer is refreshed when present. The `noparallel` and parallel
schedules run this identical per-pixel computation; it is modelled
sequentially (a worker exception aborts the batch, modelled by the error
short-circuit). -/
def trace_samples_work (E : Env) (L : List TraceLight) (p : trace_params)
    (st : RenderState) : Except String RenderState := do
  let image_size := (st.sizex, st.sizey)
  let pixels ← st.pixels.enum.mapM (fun kpx =>
    (sample_range st.samples (st.samples + p.batch)).foldlM
      (fun px smp =>
        trace_sample E L p ((kpx.1 : ℤ) % st.sizex, (kpx.1 : ℤ) / st.sizex)
          image_size smp px)
      kpx.2)
  let st := { st with pixels := pixels, samples := st.samples + p.batch }
  let st :=
    if p.denoise && st.denoised.isSome then
      { st with denoised := some (E.denoise_image (render_of st) (albedo_of st) (normal_of st)) }
    else st
  return st

/-- Translation of `trace_samples` (yocto_trace.cpp): the early return when
the accumulated sample count has reached `params.samples`, else one batch. -/
def trace_samples (E : Env) (L : List TraceLight) (p : trace_params)
    (st : RenderState) : Except String RenderState :=
  if p.samples ≤ st.samples then .ok st
  else trace_samples_work E L p st

/-- The asynchronous-render control token (the background task handle is not
part of the state; see `trace_start`). -/
structure TraceContext where
  stop : Bool
  done : Bool
deriving DecidableEq

/-- Translation of `make_trace_context`. -/
def make_trace_context (_p : trace_params) : TraceContext := ⟨false, false⟩

/-- Translation of `trace_start` (yocto_trace.cpp), with the launched
background batch collapsed to its completed effect (the model has no
concurrent cancellation, so the `stop` checks never fire): the guard returns
immediately, launching nothing; otherwise the batch runs and `done` is set.
The boolean reports whether a background batch was launched. -/
def trace_start (E : Env) (L : List TraceLight) (p : trace_params)
    (ctx : TraceContext) (st : RenderState) : TraceContext × RenderState × Bool :=
  if p.samples ≤ st.samples then (ctx, st, false)
  else
    match trace_samples_work E L p st with
    | .error _ => ({ stop := false, done := false }, st, true)
    | .ok st' => ({ stop := false, done := true }, st', true)

/-- Translation of `trace_done`. -/
def trace_done (ctx : TraceContext) : Bool := ctx.done

/-- A complete deterministic render run: `make_trace_state` followed by `n`
calls of `trace_samples`, as a pure function of the environment, lights,
parameters and call count. -/
def trace_runs (E : Env) (L : List TraceLight) (p : trace_params) (n : ℕ) :
    Except String RenderState :=
  (List.range n).foldlM (fun st _ => trace_samples E L p st) (make_trace_state E p)

/-- A fixed parameter record used to state closed dispatch facts; only the
`sampler` field varies. -/
def mkParams (s : SamplerType) : trace_params :=
  { camera := 0, resolution := 1, sampler := s, falsecolor := .color, samples := 1,
    bounces := 8, clamp := ef 10, nocaustics := false, envhidden := false,
    tentfilter := false, seed := 961748941, batch := 1, denoise := false,
    noparallel := true }

/-- A concrete environment assigning a constant interpretation to every
external function; the witnesses and counterexamples below override the
fields they depend on. -/
def constEnv : Env where
  intersect_scene := fun _ => default
  intersect_instance := fun _ _ => default
  eval_shading_position := fun _ _ => zero3
  eval_shading_normal := fun _ _ => zero3
  eval_shading_normal_at := fun _ _ _ _ => zero3
  eval_material := fun _ => default_material
  eval_material_at := fun _ _ _ => default_material
  eval_position_at := fun _ _ _ => zero3
  eval_element_normal_at := fun _ _ => zero3
  eval_element_normal := fun _ => zero3
  eval_texcoord := fun _ => (ef 0, ef 0)
  eval_environment := fun _ => zero3
  is_volumetric := fun _ => false
  eval_matte := fun _ _ _ _ => zero3
  eval_glossy := fun _ _ _ _ _ _ => zero3
  eval_reflective_rough := fun _ _ _ _ _ => zero3
  eval_reflective_delta := fun _ _ _ _ => zero3
  eval_transparent_rough := fun _ _ _ _ _ _ => zero3
  eval_transparent_delta := fun _ _ _ _ _ => zero3
  eval_refractive_rough := fun _ _ _ _ _ _ => zero3
  eval_refractive_delta := fun _ _ _ _ _ => zero3
  eval_gltfpbr := fun _ _ _ _ _ _ _ => zero3
  eval_passthrough := fun _ _ _ _ => zero3
  sample_matte := fun _ _ _ _ => zero3
  sample_glossy := fun _ _ _ _ _ _ _ => zero3
  sample_reflective_rough := fun _ _ _ _ _ => zero3
  sample_transparent_rough := fun _ _ _ _ _ _ _ => zero3
  sample_transparent_delta := fun _ _ _ _ _ => zero3
  sample_refractive_rough := fun _ _ _ _ _ _ _ => zero3
  sample_refractive_delta := fun _ _ _ _ _ => zero3
  sample_gltfpbr := fun _ _ _ _ _ _ _ _ => zero3
  sample_passthrough := fun _ _ _ => zero3
  sample_matte_pdf := fun _ _ _ _ => ef 0
  sample_glossy_pdf := fun _ _ _ _ _ _ => ef 0
  sample_reflective_rough_pdf := fun _ _ _ _ _ => ef 0
  sample_reflective_delta_pdf := fun _ _ _ _ => ef 0
  sample_tranparent_rough_pdf := fun _ _ _ _ _ _ => ef 0
  sample_tranparent_delta_pdf := fun _ _ _ _ _ => ef 0
  sample_refractive_rough_pdf := fun _ _ _ _ _ _ => ef 0
  sample_refractive_delta_pdf := fun _ _ _ _ _ => ef 0
  sample_gltfpbr_pdf := fun _ _ _ _ _ _ _ => ef 0
  sample_passthrough_pdf := fun _ _ _ _ => ef 0
  eval_phasefunction := fun _ _ _ => ef 0
  sample_phasefunction := fun _ _ _ => zero3
  sample_phasefunction_pdf := fun _ _ _ => ef 0
  sample_transmittance := fun _ _ _ _ => ef 0
  eval_transmittance := fun _ _ => one3
  sample_transmittance_pdf := fun _ _ _ => ef 1
  sample_lights := fun _ _ _ _ => zero3
  sample_discrete_pdf := fun _ _ => ef 0
  transform_direction_inv := fun _ v => v
  atan2 := fun _ _ => ef 0
  acos := fun _ => ef 0
  sine := fun _ => ef 0
  sqrt := fun _ => ef 0
  tex_size := fun _ => (1, 1)
  environments := fun _ => ⟨invalidid⟩
  instances := fun _ => ⟨0, 0⟩
  cameras := [⟨ef 1⟩]
  eval_camera := fun _ _ _ => ⟨zero3, ⟨ef 0, ef 0, ef 1⟩⟩
  sample_disk := fun uv => uv
  srgb_to_rgb := fun v => v
  hashed_color := fun _ => zero3
  fmod := fun a _ => a
  environments_empty := true
  mk_rng := fun _ _ => 0
  mk_rng1 := fun _ => 0
  rng_next := fun s => s + 1
  rng_out := fun _ => efq 1 2
  rngi_out := fun _ _ => 0
  denoise_image := fun r _ _ => r

/-- An always-hit intersection result. -/
def hitIsec : Isec := { hit := true, inst := 0, element := 0, uv := (ef 0, ef 0), distance := ef 1 }

/-- An environment whose scene consists of a fully transparent surface hit by
every ray: each loop iteration of an integrator takes the stochastic-alpha
continuation. -/
def cexEnvOp : Env :=
  { constEnv with
    intersect_scene := fun _ => hitIsec,
    eval_material := fun _ => { default_material with opacity := ef 0 } }

/-- A fixed camera ray. -/
def cexRay : Ray := ⟨zero3, ⟨ef 0, ef 0, ef 1⟩⟩

/-- An environment for `sample_lights_pdf` in which the first re-traced ray
hits the light on an element whose geometric normal is perpendicular to the
queried direction, and the continuation ray misses. -/
def cexEnvPdf : Env :=
  { constEnv with
    intersect_instance := fun _ r => if r.o = zero3 then hitIsec else default,
    eval_position_at := fun _ _ _ => ⟨ef 1, ef 1, ef 0⟩,
    eval_element_normal_at := fun _ _ => ⟨ef 0, ef 0, ef 1⟩ }

/-- A single area light whose element cdf totals a positive area. -/
def cexLight : TraceLight := ⟨0, invalidid, [ef 2]⟩

/-- An always-hit environment for the false-color counterexample. -/
def cexEnvFc : Env := { constEnv with intersect_scene := fun _ => hitIsec }

/-- Parameters selecting the falsecolor sampler with an unrecognized
false-color enum value. -/
def cexParamsFc : trace_params := { mkParams .falsecolor with falsecolor := .unknown 999 }

/-- An always-hit environment with a fully opaque material (no stochastic
alpha skip). -/
def cexEnvEye : Env :=
  { constEnv with
    intersect_scene := fun _ => hitIsec,
    eval_material := fun _ => { default_material with opacity := ef 1 } }

/-- Over any body, the loop takes at most `129 - opbounce` further opacity
continuations: the guard `if (opbounce++ > 128) break` admits the
continuation only while `opbounce ≤ 128`. -/
lemma trace_loop_go_opcs {σ : Type} (body : ℕ → σ → BodyStep σ) (limit : ℤ) :
    ∀ (fuel bounce opbounce : ℕ) (s : σ) (iters opcs : ℕ),
      (trace_loop_go body limit fuel bounce opbounce s iters opcs).2.2 ≤
        opcs + (129 - opbounce) := by
  intro fuel
  induction fuel with
  | zero =>
    intro bounce opbounce s iters opcs
    simp [trace_loop_go]
  | succ f ih =>
    intro bounce opbounce s iters opcs
    simp only [trace_loop_go]
    split
    · split
      · simp
      · next s' heq => exact ih (bounce + 1) opbounce s' (iters + 1) opcs
      · next s' heq =>
        split
        · simp
        · next hop =>
          have := ih bounce (opbounce + 1) s' (iters + 1) (opcs + 1)
          omega
    · simp

/-- Over any body, the number of iterations is bounded by the bounce budget
plus the number of opacity continuations plus one final iteration. -/
lemma trace_loop_go_iters {σ : Type} (body : ℕ → σ → BodyStep σ) (limit : ℤ) :
    ∀ (fuel bounce opbounce : ℕ) (s : σ) (iters opcs : ℕ),
      (trace_loop_go body limit fuel bounce opbounce s iters opcs).2.1 + opcs ≤
        iters + (limit - bounce).toNat +
          (trace_loop_go body limit fuel bounce opbounce s iters opcs).2.2 + 1 := by
  intro fuel
  induction fuel with
  | zero =>
    intro bounce opbounce s iters opcs
    simp only [trace_loop_go]
    omega
  | succ f ih =>
    intro bounce opbounce s iters opcs
    simp only [trace_loop_go]
    split
    · next hlt =>
      split
      · simp only
        omega
      · next s' heq =>
        have := ih (bounce + 1) opbounce s' (iters + 1) opcs
        omega
      · next s' heq =>
        split
        · simp only
          omega
        · next hop =>
          have := ih bounce (opbounce + 1) s' (iters + 1) (opcs + 1)
          omega
    · simp only
      omega

/-- The fuel of `trace_loop_go` is a ghost: any two fuels at least
`(limit - bounce).toNat + (130 - opbounce)` produce identical runs. -/
lemma trace_loop_go_fuel {σ : Type} (body : ℕ → σ → BodyStep σ) (limit : ℤ) :
    ∀ (f₁ f₂ bounce opbounce : ℕ) (s : σ) (iters opcs : ℕ),
      (limit - bounce).toNat + (130 - opbounce) ≤ f₁ →
      (limit - bounce).toNat + (130 - opbounce) ≤ f₂ →
      trace_loop_go body limit f₁ bounce opbounce s iters opcs =
        trace_loop_go body limit f₂ bounce opbounce s iters opcs := by
  intro f₁
  induction f₁ with
  | zero =>
    intro f₂ bounce opbounce s iters opcs h1 h2
    have hb : ¬ ((bounce : ℤ) < limit) := by omega
    cases f₂ with
    | zero => rfl
    | succ g => simp [trace_loop_go, hb]
  | succ f ih =>
    intro f₂ bounce opbounce s iters opcs h1 h2
    cases f₂ with
    | zero =>
      have hb : ¬ ((bounce : ℤ) < limit) := by omega
      simp [trace_loop_go, hb]
    | succ g =>
      simp only [trace_loop_go]
      split
      · next hlt =>
        split
        · rfl
        · next s' heq =>
          exact ih g (bounce + 1) opbounce s' (iters + 1) opcs (by omega) (by omega)
        · next s' heq =>
          split
          · rfl
          · next hop =>
            exact ih g bounce (opbounce + 1) s' (iters + 1) (opcs + 1) (by omega) (by omega)
      · rfl

/-- Opacity-continuation bound for a full loop run. -/
lemma trace_loop_opcs_le {σ : Type} (body : ℕ → σ → BodyStep σ) (limit : ℤ) (s : σ) :
    (trace_loop body limit s).2.2 ≤ 129 := by
  have := trace_loop_go_opcs body limit ((max limit 0).toNat + 130) 0 0 s 0 0
  simpa [trace_loop] using this

/-- Iteration bound for a full loop run. -/
lemma trace_loop_iters_le {σ : Type} (body : ℕ → σ → BodyStep σ) (limit : ℤ) (s : σ) :
    (trace_loop body limit s).2.1 ≤ limit.toNat + (trace_loop body limit s).2.2 + 1 := by
  have := trace_loop_go_iters body limit ((max limit 0).toNat + 130) 0 0 s 0 0
  simp only [trace_loop] at *
  omega

/-- Any fuel of at least `limit.toNat + 130` reproduces `trace_loop`: the
chosen fuel never cuts a run short. -/
lemma trace_loop_fuel {σ : Type} (body : ℕ → σ → BodyStep σ) (limit : ℤ) (s : σ)
    (f : ℕ) (hf : limit.toNat + 130 ≤ f) :
    trace_loop_go body limit f 0 0 s 0 0 = trace_loop body limit s := by
  unfold trace_loop
  exact trace_loop_go_fuel body limit f ((max limit 0).toNat + 130) 0 0 s 0 0
    (by omega) (by omega)

/-- Claim C1, amended: for every environment, light set, parameter record,
camera ray and generator state, each path-tracing integrator (`trace_path`,
`trace_pathdirect`, `trace_pathmis`, `trace_naive`, `trace_lightsampling`,
`trace_furnace`, `trace_eyelight`) terminates, taking at most 129 (not 128)
opacity-continuation steps, and executing at most `bounces` surface bounces
(`max(bounces, 4)` for eyelight, not `bounces`) plus those continuations plus
one final iteration. -/
theorem claim1_amended (E : Env) (L : List TraceLight) (p : trace_params)
    (ray : Ray) (rng : ℕ) :
    (trace_path_opcs E L p ray rng ≤ 129 ∧
      trace_path_iters E L p ray rng ≤
        p.bounces.toNat + trace_path_opcs E L p ray rng + 1) ∧
    (trace_pathdirect_opcs E L p ray rng ≤ 129 ∧
      trace_pathdirect_iters E L p ray rng ≤
        p.bounces.toNat + trace_pathdirect_opcs E L p ray rng + 1) ∧
    (trace_pathmis_opcs E L p ray rng ≤ 129 ∧
      trace_pathmis_iters E L p ray rng ≤
        p.bounces.toNat + trace_pathmis_opcs E L p ray rng + 1) ∧
    (trace_naive_opcs E L p ray rng ≤ 129 ∧
      trace_naive_iters E L p ray rng ≤
        p.bounces.toNat + trace_naive_opcs E L p ray rng + 1) ∧
    (trace_lightsampling_opcs E L p ray rng ≤ 129 ∧
      trace_lightsampling_iters E L p ray rng ≤
        p.bounces.toNat + trace_lightsampling_opcs E L p ray rng + 1) ∧
    (trace_furnace_opcs E L p ray rng ≤ 129 ∧
      trace_furnace_iters E L p ray rng ≤
        p.bounces.toNat + trace_furnace_opcs E L p ray rng + 1) ∧
    (trace_eyelight_opcs E L p ray rng ≤ 129 ∧
      trace_eyelight_iters E L p ray rng ≤
        (max p.bounces 4).toNat + trace_eyelight_opcs E L p ray rng + 1) := by
  exact ⟨⟨trace_loop_opcs_le _ _ _, trace_loop_iters_le _ _ _⟩,
    ⟨trace_loop_opcs_le _ _ _, trace_loop_iters_le _ _ _⟩,
    ⟨trace_loop_opcs_le _ _ _, trace_loop_iters_le _ _ _⟩,
    ⟨trace_loop_opcs_le _ _ _, trace_loop_iters_le _ _ _⟩,
    ⟨trace_loop_opcs_le _ _ _, trace_loop_iters_le _ _ _⟩,
    ⟨trace_loop_opcs_le _ _ _, trace_loop_iters_le _ _ _⟩,
    ⟨trace_loop_opcs_le _ _ _, trace_loop_iters_le _ _ _⟩⟩

/-- Claim C1, counterexample: against a fully transparent always-hit surface,
`trace_naive` performs 129 opacity-continuation steps (iterations that
decrement the bounce index and re-trace along the unchanged direction) on a
single camera ray, exceeding the bound of 128 stated by the claim. -/
theorem claim1_counterexample :
    128 < trace_naive_opcs cexEnvOp [] (mkParams .naive) cexRay 0 := by decide

/-- Claim C2, counterexample: with the falsecolor sampler selected and the
unrecognized false-color value `unknown 999`, dispatch succeeds (no error is
raised anywhere), and the ray is silently rendered as black: the `default`
label of the `trace_falsecolor` switch substitutes `{0, 0, 0}`. -/
theorem claim2_counterexample :
    get_trace_sampler_func cexParamsFc = .ok .falsecolor ∧
    (trace_falsecolor cexEnvFc [] cexParamsFc cexRay 0).1.radiance = zero3 ∧
    (trace_falsecolor cexEnvFc [] cexParamsFc cexRay 0).1.hit = true :=
  ⟨rfl, by decide, by decide⟩

/-- Claim C2, amended: an unrecognized sampler enum value raises the fatal
error "sampler unknown" at dispatch time; an unrecognized false-color enum
value under the falsecolor sampler, however, raises no error: the switch
default silently renders the (srgb-converted) black value `{0, 0, 0}`. -/
theorem claim2_amended :
    (∀ (p : trace_params) (n : ℤ), p.sampler = .unknown n →
      get_trace_sampler_func p = .error "sampler unknown") ∧
    (∀ (E : Env) (L : List TraceLight) (p : trace_params) (ray : Ray) (rng : ℕ) (n : ℤ),
      p.falsecolor = .unknown n →
      (E.intersect_scene ray).hit = true →
      (trace_falsecolor E L p ray rng).1.radiance =
        E.srgb_to_rgb zero3) := by
  constructor
  · intro p n hp
    simp [get_trace_sampler_func, hp]
  · intro E L p ray rng n hp hhit
    simp [trace_falsecolor, hp, hhit]

/-- Claim C2, witness for the amended statement at a concrete input. -/
theorem claim2_witness :
    get_trace_sampler_func (mkParams (.unknown 7)) = .error "sampler unknown" ∧
    (trace_falsecolor cexEnvFc [] cexParamsFc cexRay 0).1.radiance =
      cexEnvFc.srgb_to_rgb zero3 :=
  ⟨claim2_amended.1 (mkParams (.unknown 7)) 7 rfl,
   claim2_amended.2 cexEnvFc [] cexParamsFc cexRay 0 999 rfl rfl⟩

/-- Claim C3, counterexample: a direction that intersects an area light on an
element whose geometric normal is perpendicular to it makes the denominator
`abs(dot(lnormal, direction)) * area` zero, and `sample_lights_pdf` returns
positive infinity (an unguarded division by zero), not 0. -/
theorem claim3_counterexample :
    sample_lights_pdf cexEnvPdf [cexLight] zero3 ⟨ef 1, ef 0, ef 0⟩ = EF.pinf := by
  decide

/-- A non-finite left addend keeps `efAdd` non-finite. -/
lemma efAdd_nonfinite_left {a : EF} (b : EF) (h : efIsFinite a = false) :
    efIsFinite (efAdd a b) = false := by
  cases a <;> cases b <;> simp_all [efAdd, efIsFinite]

/-- A non-finite right addend keeps `efAdd` non-finite. -/
lemma efAdd_nonfinite_right (a : EF) {b : EF} (h : efIsFinite b = false) :
    efIsFinite (efAdd a b) = false := by
  cases a <;> cases b <;> simp_all [efAdd, efIsFinite]

/-- A non-finite left factor keeps `efMul` non-finite. -/
lemma efMul_nonfinite_left {a : EF} (b : EF) (h : efIsFinite a = false) :
    efIsFinite (efMul a b) = false := by
  cases a with
  | fin q => simp [efIsFinite] at h
  | nan => cases b <;> rfl
  | pinf =>
    cases b with
    | fin q =>
      simp only [efMul]
      split
      · rfl
      · split <;> rfl
    | pinf => rfl
    | ninf => rfl
    | nan => rfl
  | ninf =>
    cases b with
    | fin q =>
      simp only [efMul]
      split
      · rfl
      · split <;> rfl
    | pinf => rfl
    | ninf => rfl
    | nan => rfl

/-- Dividing a strictly positive (or infinite) numerator by a zero-valued
denominator produces a non-finite value. -/
lemma efDiv_zero_den_nonfinite {num den : EF}
    (hd : efBeq den (ef 0) = true) (hn : efLt (ef 0) num = true) :
    efIsFinite (efDiv num den) = false := by
  cases num with
  | fin qn =>
    cases den with
    | fin qd =>
      have hd0 : qd.n = 0 := by
        simpa [efBeq, qeq, ef, qOfInt] using hd
      have hn0 : 0 < qn.n := by
        simpa [efLt, qlt, ef, qOfInt] using hn
      have hnz : ¬ qn.n = 0 := by omega
      simp [efDiv, qZero, qPos, hd0, hnz, hn0, efIsFinite]
    | pinf => simp [efBeq, ef] at hd
    | ninf => simp [efBeq, ef] at hd
    | nan => simp [efBeq, ef] at hd
  | pinf =>
    cases den with
    | fin qd =>
      simp only [efDiv]
      split <;> rfl
    | pinf => simp [efBeq, ef] at hd
    | ninf => simp [efBeq, ef] at hd
    | nan => simp [efBeq, ef] at hd
  | ninf => simp [efLt, ef] at hn
  | nan => simp [efLt, ef] at hn

/-- Once the accumulated per-light pdf is non-finite, the re-tracing loop of
`sample_lights_pdf` keeps it non-finite. -/
lemma lights_pdf_loop_nonfinite (E : Env) (inst : ℤ) (area : EF)
    (position direction : EV3) :
    ∀ (fuel : ℕ) (np : EV3) (lpdf : EF), efIsFinite lpdf = false →
      efIsFinite (lights_pdf_loop E inst area position direction fuel np lpdf) = false := by
  intro fuel
  induction fuel with
  | zero => intro np lpdf h; simpa [lights_pdf_loop] using h
  | succ f ih =>
    intro np lpdf h
    simp only [lights_pdf_loop]
    split
    · exact h
    · exact ih _ _ (efAdd_nonfinite_left _ h)

/-- Claim C3, amended: for a single area light, `sample_lights_pdf` returns 0
when the re-traced ray misses the light entirely (in particular for a
direction parallel to the light surface); but in a degenerate hit — the
element normal perpendicular to the direction, or a zero total light area
(the Jacobian divides by the light's total `elements_cdf` area, not the hit
element's own area) — the division `distance² / (abs(dot(lnormal, dir)) *
area)` is performed with a zero denominator, and the resulting pdf is
non-finite (inf/NaN) rather than 0. -/
theorem claim3_amended :
    (∀ (E : Env) (l : TraceLight) (position direction : EV3),
      l.inst ≠ invalidid →
      (∀ p2 : EV3, (E.intersect_instance l.inst ⟨p2, direction⟩).hit = false) →
      sample_lights_pdf E [l] position direction = ef 0) ∧
    (∀ (E : Env) (l : TraceLight) (position direction : EV3),
      l.inst ≠ invalidid →
      ∀ isec : Isec, isec = E.intersect_instance l.inst ⟨position, direction⟩ →
      isec.hit = true →
      efBeq (efAbs (dot (E.eval_element_normal_at l.inst isec.element) direction) *
        cdf_back l.elements_cdf) (ef 0) = true →
      efLt (ef 0)
        (distance_squared (E.eval_position_at l.inst isec.element isec.uv) position) = true →
      efIsFinite (sample_lights_pdf E [l] position direction) = false) := by
  constructor
  · intro E l position direction hinst hmiss
    have hloop : lights_pdf_loop E l.inst (cdf_back l.elements_cdf) position direction
        100 position (ef 0) = ef 0 := by
      rw [show (100 : ℕ) = 99 + 1 from rfl]
      simp [lights_pdf_loop, hmiss]
    simp only [sample_lights_pdf, List.foldl, light_pdf, hinst, ne_eq,
      not_false_iff, if_true, hloop]
    rfl
  · intro E l position direction hinst isec hisec hhit hden hnum
    have key : efIsFinite
        (lights_pdf_loop E l.inst (cdf_back l.elements_cdf) position direction
          100 position (ef 0)) = false := by
      rw [show (100 : ℕ) = 99 + 1 from rfl]
      rw [lights_pdf_loop, ← hisec, hhit]
      simp only [Bool.not_true, Bool.false_eq_true, if_false]
      exact lights_pdf_loop_nonfinite E l.inst _ position direction 99 _ _
        (efAdd_nonfinite_right _ (efDiv_zero_den_nonfinite hden hnum))
    simp only [sample_lights_pdf, List.foldl, light_pdf, hinst, if_true,
      ne_eq, not_false_iff]
    exact efMul_nonfinite_left _ (efAdd_nonfinite_right _ key)

/-- Claim C3, witness for the amended statement: both parts applied at
concrete inputs (an all-missing oracle, and the grazing-hit oracle of the
counterexample environment family with a different base position). -/
theorem claim3_witness :
    sample_lights_pdf constEnv [cexLight] zero3 ⟨ef 1, ef 0, ef 0⟩ = ef 0 ∧
    efIsFinite (sample_lights_pdf cexEnvPdf [cexLight] zero3 ⟨ef 1, ef 0, ef 0⟩) = false :=
  ⟨claim3_amended.1 constEnv cexLight zero3 ⟨ef 1, ef 0, ef 0⟩ (by decide)
      (fun _ => rfl),
   claim3_amended.2 cexEnvPdf cexLight zero3 ⟨ef 1, ef 0, ef 0⟩ (by decide)
      _ rfl (by decide) (by decide) (by decide)⟩

/-- Claim C10: whatever the other parameters, `is_sampler_lit` raises the
fatal "sampler unknown" error for the `lightsampling` and `pathtest` sampler
values even though `get_trace_sampler_func` accepts both and returns their
integrators; it returns true for `path`, `pathdirect`, `pathmis`, `naive`
and `furnace`, and false for `eyelight` and `falsecolor`. -/
theorem claim10_sampler_lit : ∀ p : trace_params,
    is_sampler_lit { p with sampler := .lightsampling } = .error "sampler unknown" ∧
    is_sampler_lit { p with sampler := .pathtest } = .error "sampler unknown" ∧
    get_trace_sampler_func { p with sampler := .lightsampling } = .ok .lightsampling ∧
    get_trace_sampler_func { p with sampler := .pathtest } = .ok .pathtest ∧
    is_sampler_lit { p with sampler := .path } = .ok true ∧
    is_sampler_lit { p with sampler := .pathdirect } = .ok true ∧
    is_sampler_lit { p with sampler := .pathmis } = .ok true ∧
    is_sampler_lit { p with sampler := .naive } = .ok true ∧
    is_sampler_lit { p with sampler := .furnace } = .ok true ∧
    is_sampler_lit { p with sampler := .eyelight } = .ok false ∧
    is_sampler_lit { p with sampler := .falsecolor } = .ok false :=
  fun _ => ⟨rfl, rfl, rfl, rfl, rfl, rfl, rfl, rfl, rfl, rfl, rfl⟩

/-- Claim C4: the Russian-roulette block shared by every path-tracing loop
applies only at bounce index strictly greater than 3 (below that the weight
and generator pass through unchanged and no random draw is taken); at
`bounce > 3` the path continues exactly when the drawn random number is
below `rr_prob = min(0.99, max(weight))`, in which case the throughput is
multiplied by `1 / rr_prob`, and terminates otherwise. -/
theorem claim4_roulette : ∀ (E : Env) (bounce : ℕ) (weight : EV3) (rng : ℕ),
    (bounce ≤ 3 → russian_roulette E bounce weight rng = (some weight, rng)) ∧
    (3 < bounce →
      (efLe (efMin (efq 99 100) (ev3max weight)) (E.rng_out rng) = true →
        russian_roulette E bounce weight rng = (none, E.rng_next rng)) ∧
      (efLe (efMin (efq 99 100) (ev3max weight)) (E.rng_out rng) = false →
        russian_roulette E bounce weight rng =
          (some (weight * (ef 1 / efMin (efq 99 100) (ev3max weight))),
            E.rng_next rng))) := by
  intro E bounce weight rng
  constructor
  · intro h
    simp [russian_roulette, Nat.not_lt.mpr h]
  · intro h
    constructor <;> intro hc <;> simp [russian_roulette, h, rand1f, hc]

/-- Claim C4, witness: at bounce 5 with unit throughput, the survival
probability is 0.99 and a draw of 1/2 continues the path with the throughput
scaled by 1/0.99. -/
theorem claim4_witness :
    russian_roulette constEnv 5 one3 0 =
      (some (one3 * (ef 1 / efMin (efq 99 100) (ev3max one3))), constEnv.rng_next 0) :=
  ((claim4_roulette constEnv 5 one3 0).2 (by decide)).2 (by decide)

/-- Claim C5: at roughness 0 the smooth-BSDF evaluator `eval_bsdfcos`
returns the zero vector for every material and all directions; and for a
reflective material at roughness 0, `sample_delta` ignores its random input
entirely and returns the deterministic mirror reflection of the outgoing
direction about the normal. -/
theorem claim5_delta : ∀ (E : Env) (m : MatPt) (normal outgoing incoming : EV3) (r1 r2 : EF),
    (m.roughness = ef 0 → eval_bsdfcos E m normal outgoing incoming = zero3) ∧
    (m.roughness = ef 0 → m.type = .reflective →
      sample_delta E m normal outgoing r1 = sample_delta E m normal outgoing r2 ∧
      sample_delta E m normal outgoing r1 = reflect outgoing normal) := by
  intro E m normal outgoing incoming r1 r2
  constructor
  · intro h
    simp [eval_bsdfcos, h, efBeq, qeq, ef, qOfInt]
  · intro h ht
    simp [sample_delta, h, ht, sample_reflective_delta, efBeq, qeq, ef, qOfInt]

/-- Claim C5, witness: a concrete zero-roughness mirror material. -/
theorem claim5_witness :
    eval_bsdfcos constEnv { default_material with type := .reflective }
      zero3 one3 one3 = zero3 ∧
    sample_delta constEnv { default_material with type := .reflective }
      zero3 one3 (ef 0) =
      sample_delta constEnv { default_material with type := .reflective }
        zero3 one3 (ef 1) :=
  ⟨(claim5_delta constEnv _ zero3 one3 one3 (ef 0) (ef 1)).1 rfl,
   ((claim5_delta constEnv _ zero3 one3 one3 (ef 0) (ef 1)).2 rfl rfl).1⟩

/-- Claim C7: with a fixed seed, fixed sample count and `noparallel = true`,
two complete runs of `make_trace_state` followed by the same number of
`trace_samples` calls produce identical render, albedo and normal buffers:
the whole pipeline is a pure function of the environment, lights, parameters
and call count, with all randomness drawn from the deterministically seeded
per-pixel generators. -/
theorem claim7_determinism : ∀ (E : Env) (L : List TraceLight) (p : trace_params) (n : ℕ),
    p.noparallel = true →
    Except.map render_of (trace_runs E L p n) = Except.map render_of (trace_runs E L p n) ∧
    Except.map albedo_of (trace_runs E L p n) = Except.map albedo_of (trace_runs E L p n) ∧
    Except.map normal_of (trace_runs E L p n) = Except.map normal_of (trace_runs E L p n) :=
  fun _ _ _ _ _ => ⟨rfl, rfl, rfl⟩

/-- Claim C7, witness. -/
theorem claim7_witness :
    Except.map render_of (trace_runs constEnv [] (mkParams .path) 1) =
      Except.map render_of (trace_runs constEnv [] (mkParams .path) 1) :=
  (claim7_determinism constEnv [] (mkParams .path) 1 rfl).1

/-- Claim C9: once the accumulated sample count has reached or exceeded
`params.samples`, `trace_samples` returns the state unchanged (and without
error), and `trace_start` returns with the context and state untouched and
no background batch launched. -/
theorem claim9_guard : ∀ (E : Env) (L : List TraceLight) (p : trace_params)
    (ctx : TraceContext) (st : RenderState),
    p.samples ≤ st.samples →
    trace_samples E L p st = .ok st ∧
    trace_start E L p ctx st = (ctx, st, false) := by
  intro E L p ctx st h
  constructor
  · simp [trace_samples, h]
  · simp [trace_start, h]

/-- Claim C9, witness: a state that has already accumulated all requested
samples. -/
theorem claim9_witness :
    trace_samples constEnv [] (mkParams .path)
      { samples := 1, sizex := 1, sizey := 1, pixels := [], denoised := none } =
      .ok { samples := 1, sizex := 1, sizey := 1, pixels := [], denoised := none } ∧
    trace_start constEnv [] (mkParams .path) ⟨false, false⟩
      { samples := 1, sizex := 1, sizey := 1, pixels := [], denoised := none } =
      (⟨false, false⟩,
        { samples := 1, sizex := 1, sizey := 1, pixels := [], denoised := none }, false) :=
  claim9_guard constEnv [] (mkParams .path) ⟨false, false⟩
    { samples := 1, sizex := 1, sizey := 1, pixels := [], denoised := none } (by decide)

/-- Claim C8: at every surface hit that does not take the stochastic-alpha
skip, the eyelight integrator's iteration leaves the radiance equal to the
incoming radiance plus the throughput times the emission plus the throughput
times `pif` times `eval_bsdfcos` evaluated with the incoming direction set
equal to the outgoing direction, whichever way the iteration then
continues. -/
theorem claim8_eyelight : ∀ (E : Env) (L : List TraceLight) (p : trace_params)
    (bounce : ℕ) (s : TState),
    (E.intersect_scene s.ray).hit = true →
    (opacity_test E (E.eval_material (E.intersect_scene s.ray)).opacity s.rng).1 = false →
    (stepState (trace_eyelight_body E L p bounce s)).radiance =
      s.radiance +
        s.weight *
          eval_emission (E.eval_material (E.intersect_scene s.ray))
            (E.eval_shading_normal (E.intersect_scene s.ray) (-s.ray.d)) (-s.ray.d) +
        s.weight * pif *
          eval_bsdfcos E (E.eval_material (E.intersect_scene s.ray))
            (E.eval_shading_normal (E.intersect_scene s.ray) (-s.ray.d)) (-s.ray.d)
            (-s.ray.d) := by
  intro E L p bounce s hhit hop
  rcases hopt : opacity_test E (E.eval_material (E.intersect_scene s.ray)).opacity s.rng
    with ⟨skip, rng2⟩
  have hskip : skip = false := by simpa [hopt] using hop
  subst hskip
  simp only [trace_eyelight_body, hhit, hopt]
  simp only [Bool.not_true, Bool.false_eq_true, if_false]
  split
  · simp [stepState]
  · split
    · simp [stepState]
    · split
      · simp [stepState]
      · simp [stepState]

/-- Claim C8, witness: a concrete always-hit opaque environment. -/
theorem claim8_witness :
    (stepState (trace_eyelight_body cexEnvEye [] (mkParams .eyelight) 0
        (init_state cexRay 0))).radiance =
      (init_state cexRay 0).radiance +
        (init_state cexRay 0).weight *
          eval_emission (cexEnvEye.eval_material (cexEnvEye.intersect_scene cexRay))
            (cexEnvEye.eval_shading_normal (cexEnvEye.intersect_scene cexRay)
              (-cexRay.d)) (-cexRay.d) +
        (init_state cexRay 0).weight * pif *
          eval_bsdfcos cexEnvEye
            (cexEnvEye.eval_material (cexEnvEye.intersect_scene cexRay))
            (cexEnvEye.eval_shading_normal (cexEnvEye.intersect_scene cexRay)
              (-cexRay.d)) (-cexRay.d) (-cexRay.d) :=
  claim8_eyelight cexEnvEye [] (mkParams .eyelight) 0 (init_state cexRay 0)
    rfl (by decide)

/-- Cross-multiplied order agrees with the rational values. -/
lemma qlt_val_iff {a b : Q} : qlt a b = true ↔ a.val < b.val := by
  unfold qlt Q.val
  rw [decide_eq_true_eq,
    div_lt_div_iff (by exact_mod_cast a.dpos) (by exact_mod_cast b.dpos)]
  constructor <;> intro h <;> exact_mod_cast h

/-- Cross-multiplied equality agrees with the rational values. -/
lemma qeq_val_iff {a b : Q} : qeq a b = true ↔ a.val = b.val := by
  unfold qeq Q.val
  rw [decide_eq_true_eq,
    div_eq_div_iff (by exact_mod_cast a.dpos.ne' : ((a.d : ℚ)) ≠ 0)
      (by exact_mod_cast b.dpos.ne' : ((b.d : ℚ)) ≠ 0)]
  constructor <;> intro h <;> exact_mod_cast h

/-- Positivity of the value is positivity of the numerator. -/
lemma q_val_pos_iff {a : Q} : 0 < a.val ↔ 0 < a.n := by
  unfold Q.val
  rw [lt_div_iff (by exact_mod_cast a.dpos)]
  constructor <;> intro h <;> exact_mod_cast (by simpa using h)

/-- Nonnegativity of the value is nonnegativity of the numerator. -/
lemma q_val_nonneg_iff {a : Q} : 0 ≤ a.val ↔ 0 ≤ a.n := by
  unfold Q.val
  rw [le_div_iff (by exact_mod_cast a.dpos)]
  constructor <;> intro h <;> exact_mod_cast (by simpa using h)

/-- The value of a product. -/
lemma qMul_val (a b : Q) : (qMul a b).val = a.val * b.val := by
  unfold qMul Q.val
  push_cast
  rw [div_mul_div_comm]

/-- The value of a quotient with positive divisor numerator. -/
lemma qDiv_val (a : Q) {b : Q} (hb : 0 < b.n) : (qDiv a b).val = a.val / b.val := by
  unfold qDiv
  rw [dif_pos hb]
  unfold Q.val
  have h1 : ((a.d : ℚ)) ≠ 0 := by exact_mod_cast a.dpos.ne'
  have h2 : ((b.d : ℚ)) ≠ 0 := by exact_mod_cast b.dpos.ne'
  have h3 : ((b.n : ℚ)) ≠ 0 := by exact_mod_cast hb.ne'
  push_cast
  field_simp

/-- The float `max` of three finite components is a finite component whose
value is the rational maximum. -/
lemma ev3max_fin (a b c : Q) :
    ∃ qm : Q, ev3max ⟨.fin a, .fin b, .fin c⟩ = .fin qm ∧
      qm.val = max (max a.val b.val) c.val := by
  have hab : ∃ qab : Q, efMax (EF.fin a) (EF.fin b) = .fin qab ∧
      qab.val = max a.val b.val := by
    by_cases h : qlt b a = true
    · exact ⟨a, by simp [efMax, efLt, h],
        (max_eq_left (le_of_lt (qlt_val_iff.mp h))).symm⟩
    · refine ⟨b, by simp [efMax, efLt, h], ?_⟩
      have : ¬ (b.val < a.val) := fun hc => h (qlt_val_iff.mpr hc)
      exact (max_eq_right (not_lt.mp this)).symm
  obtain ⟨qab, hab1, hab2⟩ := hab
  unfold ev3max
  rw [hab1]
  by_cases h : qlt c qab = true
  · refine ⟨qab, by simp [efMax, efLt, h], ?_⟩
    have hc : c.val < max a.val b.val := by
      rw [← hab2]
      exact qlt_val_iff.mp h
    rw [hab2]
    exact (max_eq_left (le_of_lt hc)).symm
  · refine ⟨c, by simp [efMax, efLt, h], ?_⟩
    have hc : ¬ (c.val < max a.val b.val) := fun hl =>
      h (qlt_val_iff.mpr (by rw [hab2]; exact hl))
    exact (max_eq_right (not_lt.mp hc)).symm

/-- Componentwise scaling of a finite `vec3f` by a finite scalar. -/
lemma ev3_smul_fin (qx qy qz t : Q) :
    (⟨.fin qx, .fin qy, .fin qz⟩ : EV3) * EF.fin t =
      ⟨.fin (qMul qx t), .fin (qMul qy t), .fin (qMul qz t)⟩ := rfl

/-- Claim C6: in `trace_sample`, a non-finite sampler radiance is replaced by
zero before accumulation; a finite radiance whose largest component exceeds
`params.clamp` is rescaled so its largest component equals `params.clamp`
exactly (for any nonnegative clamp); and inside the integrators, a zero or
non-finite path throughput makes the shared weight-check-and-roulette step
terminate the path. -/
theorem claim6_finite_clamp : ∀ (E : Env) (radiance : EV3) (clampv : EF)
    (bounce : ℕ) (w : EV3) (rng : ℕ),
    (ev3IsFinite radiance = false → efLt clampv (ef 0) = false →
      trace_sample_clamp radiance clampv = zero3) ∧
    (ev3IsFinite radiance = true → efLt clampv (ef 0) = false →
      efLt clampv (ev3max radiance) = true →
      efBeq (ev3max (trace_sample_clamp radiance clampv)) clampv = true) ∧
    (weight_invalid w = true → check_and_roulette E bounce w rng = (none, rng)) := by
  intro E radiance clampv bounce w rng
  refine ⟨?_, ?_, ?_⟩
  · intro h1 h2
    have hz : ev3max zero3 = ef 0 := rfl
    simp [trace_sample_clamp, h1, hz, h2]
  · intro hfin hc0 hcl
    rcases radiance with ⟨x, y, z⟩
    cases x with
    | fin qx =>
      cases y with
      | fin qy =>
        cases z with
        | fin qz =>
          obtain ⟨qm, hqm, hqmval⟩ := ev3max_fin qx qy qz
          rw [hqm] at hcl
          cases clampv with
          | fin qc =>
            have hqlt : qlt qc qm = true := by simpa [efLt] using hcl
            have hvlt : qc.val < qm.val := qlt_val_iff.mp hqlt
            have hc0n : 0 ≤ qc.n := by
              have := hc0
              simp [efLt, qlt, ef, qOfInt] at this
              omega
            have hcval : 0 ≤ qc.val := q_val_nonneg_iff.mpr hc0n
            have hmpos : 0 < qm.n := q_val_pos_iff.mp (lt_of_le_of_lt hcval hvlt)
            have hmzero : qZero qm = false := by
              simp [qZero]
              omega
            simp only [trace_sample_clamp, hfin, Bool.not_true, Bool.false_eq_true,
              if_false, hqm, hcl, if_true]
            rw [show (EF.fin qc / EF.fin qm) = EF.fin (qDiv qc qm) from by
              show efDiv _ _ = _
              simp [efDiv, hmzero]]
            rw [ev3_smul_fin]
            obtain ⟨qm2, hqm2, hqm2val⟩ := ev3max_fin (qMul qx (qDiv qc qm))
              (qMul qy (qDiv qc qm)) (qMul qz (qDiv qc qm))
            rw [hqm2]
            show qeq qm2 qc = true
            apply qeq_val_iff.mpr
            have htval : (qDiv qc qm).val = qc.val / qm.val := qDiv_val qc hmpos
            have htnn : 0 ≤ (qDiv qc qm).val := by
              rw [htval]
              exact div_nonneg hcval (le_of_lt (lt_of_le_of_lt hcval hvlt))
            calc qm2.val
                = max (max ((qMul qx (qDiv qc qm)).val) ((qMul qy (qDiv qc qm)).val))
                    ((qMul qz (qDiv qc qm)).val) := hqm2val
              _ = max (max (qx.val * (qDiv qc qm).val) (qy.val * (qDiv qc qm).val))
                    (qz.val * (qDiv qc qm).val) := by rw [qMul_val, qMul_val, qMul_val]
              _ = max (max qx.val qy.val) qz.val * (qDiv qc qm).val := by
                    rw [max_mul_of_nonneg _ _ htnn, max_mul_of_nonneg _ _ htnn]
              _ = qm.val * (qDiv qc qm).val := by rw [← hqmval]
              _ = qm.val * (qc.val / qm.val) := by rw [htval]
              _ = qc.val := by
                    rw [mul_comm]
                    exact div_mul_cancel₀ _
                      (ne_of_gt (lt_of_le_of_lt hcval hvlt))
          | pinf => simp [efLt] at hcl
          | ninf => simp [efLt, ef] at hc0
          | nan => simp [efLt] at hcl
        | pinf => simp [ev3IsFinite, efIsFinite] at hfin
        | ninf => simp [ev3IsFinite, efIsFinite] at hfin
        | nan => simp [ev3IsFinite, efIsFinite] at hfin
      | pinf => simp [ev3IsFinite, efIsFinite] at hfin
      | ninf => simp [ev3IsFinite, efIsFinite] at hfin
      | nan => simp [ev3IsFinite, efIsFinite] at hfin
    | pinf => simp [ev3IsFinite, efIsFinite] at hfin
    | ninf => simp [ev3IsFinite, efIsFinite] at hfin
    | nan => simp [ev3IsFinite, efIsFinite] at hfin
  · intro h
    simp [check_and_roulette, h]

/-- Claim C6, witness: a NaN radiance is zeroed; a finite radiance with a
large component is rescaled so its maximum equals the clamp value; a zero
throughput terminates the path. -/
theorem claim6_witness :
    trace_sample_clamp ⟨EF.nan, ef 0, ef 0⟩ (ef 10) = zero3 ∧
    efBeq (ev3max (trace_sample_clamp ⟨ef 20, ef 4, ef 2⟩ (ef 10))) (ef 10) = true ∧
    check_and_roulette constEnv 5 zero3 0 = (none, 0) :=
  ⟨(claim6_finite_clamp constEnv ⟨EF.nan, ef 0, ef 0⟩ (ef 10) 5 zero3 0).1
      (by decide) (by decide),
   (claim6_finite_clamp constEnv ⟨ef 20, ef 4, ef 2⟩ (ef 10) 5 zero3 0).2.1
      (by decide) (by decide) (by decide),
   (claim6_finite_clamp constEnv ⟨ef 20, ef 4, ef 2⟩ (ef 10) 5 zero3 0).2.2
      (by decide)⟩

end YoctoTrace
